import Mathlib

/-!
Shallow embedding of the metaverse transaction admission validator
(`src/lib/blockchain/validate_transaction.cpp`) and proofs of the
specification claims about it.

Machine integers (`uint64_t`) are modelled as `Nat`; accumulating additions
that may wrap in the source carry an explicit `% 2^64`.  Asynchronous chain
and pool lookups are modelled as pure lookup functions collected in an
environment record `Env`; the continuation-passing orchestrator becomes a
function from `Env` and transaction to the list of handler invocations it
performs.
-/

namespace MVS

/-- Error codes of the validator (the subset of the `error` enumeration that
`validate_transaction.cpp` can produce). -/
inductive ErrCode where
  | success
  | coinbase_transaction
  | is_not_standard
  | duplicate
  | double_spend
  | input_not_found
  | validate_inputs_failed
  | fees_out_of_range
  | empty_transaction
  | size_limits
  | output_value_overflow
  | transaction_version_error
  | nova_feature_not_activated
  | script_not_standard
  | invalid_coinbase_script_size
  | previous_output_null
  | invalid_input_script_lock_height
  | invalid_output_script_lock_height
  | attenuation_model_param_error
  | attachment_invalid
  | asset_symbol_invalid
  | did_symbol_invalid
  | mit_symbol_invalid
  | asset_exist
  | asset_cert_exist
  | mit_exist
  | did_exist
  | did_not_exist
  | address_registered_did
  | did_address_needed
  | did_multi_type_exist
  | did_input_error
  | did_address_not_match
  | did_symbol_not_match
  | asset_amount_not_equal
  | asset_symbol_not_match
  | asset_cert_error
  | asset_cert_not_provided
  | asset_cert_issue_error
  | asset_issue_error
  | asset_secondaryissue_error
  | asset_secondaryissue_threshold_invalid
  | asset_secondaryissue_share_not_enough
  | asset_did_registerr_not_match
  | mit_error
  | mit_register_error
deriving DecidableEq, Repr

/-- The `business_kind` enumeration latched while connecting inputs. -/
inductive BusinessKind where
  | etp
  | asset_issue
  | asset_transfer
  | asset_cert
  | asset_mit
  | did_register
  | did_transfer
deriving DecidableEq, Repr

/-- Asset certificate types (`asset_cert_ns`): `none`, `issue`, `domain`,
`naming`. -/
inductive AssetCertType where
  | cnone
  | issue
  | domain
  | naming
deriving DecidableEq, Repr

/-- Status carried by an asset-cert attachment; `certIssue` marks a
cert-issue output, `certTransfer` a cert-transfer output. -/
inductive CertStatus where
  | normal
  | certIssue
  | certTransfer
  | autoissue
deriving DecidableEq, Repr

/-- The `asset_detail` payload of an asset-issue / secondary-issue output. -/
structure AssetDetailInfo where
  symbol : String
  address : String
  maxSupply : Nat
  threshold : Nat
  /-- Whether the detail is marked as a secondary issue
  (`asset_detail::is_asset_secondaryissue`). -/
  secondaryFlag : Bool
  certMask : List AssetCertType
  issuer : String
deriving DecidableEq, Repr

/-- The `asset_transfer` payload of an asset-transfer output. -/
structure AssetTransferInfo where
  symbol : String
  quantity : Nat
deriving DecidableEq, Repr

/-- The `asset_cert` payload of an asset-cert output. -/
structure CertInfo where
  symbol : String
  owner : String
  address : String
  ctype : AssetCertType
  status : CertStatus
deriving DecidableEq, Repr

/-- The MIT payload; `isRegister` distinguishes register from transfer. -/
structure MitInfo where
  symbol : String
  address : String
  isRegister : Bool
deriving DecidableEq, Repr

/-- The DID payload (symbol bound to an address). -/
structure DidInfo where
  symbol : String
  address : String
deriving DecidableEq, Repr

/-- The tagged attachment variant carried by each output. -/
inductive Attach where
  | etp
  | message
  | assetIssue (d : AssetDetailInfo)
  | assetTransfer (t : AssetTransferInfo)
  | assetCert (c : CertInfo)
  | mit (m : MitInfo)
  | didRegister (d : DidInfo)
  | didTransfer (d : DidInfo)
deriving DecidableEq, Repr

/-- A transaction output.  Scripts are consumed opaquely: `scriptId` feeds
the consensus-verification oracle, the pattern predicates of the source
become precomputed fields. -/
structure Output where
  value : Nat
  attach : Attach
  scriptAddress : String
  scriptId : Nat
  scriptNonStandard : Bool
  payAttenuationPattern : Bool
  attenuationParam : Nat
  payLockHeight : Option Nat
  attachValid : Bool
  attachVersion : Nat
  fromDid : String
  toDid : String
  attachAddress : String
deriving DecidableEq, Repr

/-- A transaction input.  `signLockHeight` is `some h` when the input script
matches the sign-key-hash-with-lock-height pattern with lock height `h`. -/
structure Input where
  prevHash : Nat
  prevIndex : Nat
  scriptSize : Nat
  signLockHeight : Option Nat
deriving DecidableEq, Repr

/-- A transaction.  The hash and serialized size are opaque attributes. -/
structure Transaction where
  version : Nat
  inputs : List Input
  outputs : List Output
  txHash : Nat
  serializedSize : Nat
deriving DecidableEq, Repr

/-- The minimum admission fee (`min_tx_fee = 10000`). -/
def min_tx_fee : Nat := 10000

/-- Maximum serialized transaction size (1,000,000 bytes). -/
def max_transaction_size : Nat := 1000000

/-- Modelled from the spec: `max_money()` is a fixed chain constant whose
exact value the spec leaves to the chain constants; any value below `2^63`
preserves the source's overflow behaviour. -/
def max_money : Nat := 2099999997690000

/-- Modulus of `uint64_t` arithmetic. -/
def u64Mod : Nat := 2 ^ 64

/-- Largest `uint64_t` value (`max_uint64`). -/
def max_uint64 : Nat := 2 ^ 64 - 1

/-- Modelled from the spec: transaction version thresholds; the spec fixes
only their order (`first < check_output_script`, nova versions below
`max_version`). -/
def tv_first : Nat := 1

/-- Version from which output script patterns are checked. -/
def tv_check_output_script : Nat := 2

/-- Version carrying the nova feature gate. -/
def tv_check_nova_feature : Nat := 3

/-- Testnet-only nova version. -/
def tv_check_nova_testnet : Nat := 4

/-- First invalid version. -/
def tv_max_version : Nat := 5

/-- DID status tag for a registration (`DID_DETAIL_TYPE`). -/
def DID_DETAIL_TYPE : Nat := 1

/-- DID status tag for a transfer (`DID_TRANSFERABLE_TYPE`). -/
def DID_TRANSFERABLE_TYPE : Nat := 2

/-- Attachment version that turns on DID verification
(`DID_ATTACH_VERIFY_VERSION`). -/
def DID_ATTACH_VERIFY_VERSION : Nat := 207

/-- Modelled from the spec: the `freely_issuable` secondary-issue threshold
sentinel. -/
def secondaryissue_freely : Nat := 127

/-- Modelled from the spec: the `forbidden` secondary-issue threshold
sentinel. -/
def secondaryissue_forbidden : Nat := 0

/-- Modelled from the spec: a secondary-issue threshold is valid when it is
the `freely_issuable` sentinel or lies in 0..100. -/
def is_secondaryissue_threshold_value_ok (t : Nat) : Bool :=
  t = secondaryissue_freely ∨ t ≤ 100

/-- Modelled from the spec: `asset_detail::is_secondaryissue_owns_enough` —
the owner must hold at least `threshold` percent of the accumulated volume;
the `freely_issuable` sentinel always passes and `forbidden` never does. -/
def is_secondaryissue_owns_enough (own total threshold : Nat) : Bool :=
  if threshold = secondaryissue_freely then true
  else if threshold = secondaryissue_forbidden then false
  else total * threshold ≤ own * 100

/-- Modelled from the spec: the domain of a symbol is the portion before the
first dot (`asset_cert::get_domain`). -/
def getDomain (s : String) : String :=
  String.mk (s.data.takeWhile (fun c => c ≠ '.'))

/-- Membership test used by `asset_cert::test_certs` on a single type. -/
def testCert (certs : List AssetCertType) (t : AssetCertType) : Bool :=
  decide (t ∈ certs)

/-- Mask test used by `asset_cert::test_certs` on a list of types: every
type of the mask must be present. -/
def testCerts (certs mask : List AssetCertType) : Bool :=
  mask.all (fun t => decide (t ∈ certs))

/-- The `check_same` helper: an empty slot is filled, a filled slot must
agree; `none` signals disagreement. -/
def checkSame (dest src : String) : Option String :=
  if dest = "" then some src
  else if dest = src then some dest
  else none

namespace Output

/-- Whether the output is a plain etp output. -/
def isEtp (o : Output) : Bool :=
  match o.attach with
  | .etp => true
  | _ => false

/-- Whether the output is a message output. -/
def isMessage (o : Output) : Bool :=
  match o.attach with
  | .message => true
  | _ => false

/-- Whether the output is an asset-issue output (asset detail not marked as
secondary issue). -/
def isAssetIssue (o : Output) : Bool :=
  match o.attach with
  | .assetIssue d => !d.secondaryFlag
  | _ => false

/-- Whether the output is an asset-secondary-issue output. -/
def isAssetSecondaryIssue (o : Output) : Bool :=
  match o.attach with
  | .assetIssue d => d.secondaryFlag
  | _ => false

/-- Whether the output is an asset-transfer output. -/
def isAssetTransfer (o : Output) : Bool :=
  match o.attach with
  | .assetTransfer _ => true
  | _ => false

/-- Whether the output carries any asset payload (issue, secondary issue or
transfer). -/
def isAsset (o : Output) : Bool :=
  match o.attach with
  | .assetIssue _ => true
  | .assetTransfer _ => true
  | _ => false

/-- Whether the output is an asset-cert output (any cert status). -/
def isAssetCert (o : Output) : Bool :=
  match o.attach with
  | .assetCert _ => true
  | _ => false

/-- Whether the output is an asset-cert-issue output. -/
def isAssetCertIssue (o : Output) : Bool :=
  match o.attach with
  | .assetCert c => c.status = CertStatus.certIssue
  | _ => false

/-- Whether the output is a MIT-register output. -/
def isAssetMitRegister (o : Output) : Bool :=
  match o.attach with
  | .mit m => m.isRegister
  | _ => false

/-- Whether the output is a MIT-transfer output. -/
def isAssetMitTransfer (o : Output) : Bool :=
  match o.attach with
  | .mit m => !m.isRegister
  | _ => false

/-- Whether the output carries a MIT payload. -/
def isAssetMit (o : Output) : Bool :=
  match o.attach with
  | .mit _ => true
  | _ => false

/-- Whether the output is a DID registration. -/
def isDidRegister (o : Output) : Bool :=
  match o.attach with
  | .didRegister _ => true
  | _ => false

/-- Whether the output is a DID transfer. -/
def isDidTransfer (o : Output) : Bool :=
  match o.attach with
  | .didTransfer _ => true
  | _ => false

/-- Whether the output carries a DID payload. -/
def isDid (o : Output) : Bool :=
  match o.attach with
  | .didRegister _ => true
  | .didTransfer _ => true
  | _ => false

/-- Accessor `output::get_asset_amount`: issue outputs report the maximum
supply, transfers their quantity. -/
def getAssetAmount (o : Output) : Nat :=
  match o.attach with
  | .assetIssue d => d.maxSupply
  | .assetTransfer t => t.quantity
  | _ => 0

/-- Accessor `output::get_asset_symbol`: the symbol of an asset, cert or
MIT payload, empty otherwise. -/
def getAssetSymbol (o : Output) : String :=
  match o.attach with
  | .assetIssue d => d.symbol
  | .assetTransfer t => t.symbol
  | .assetCert c => c.symbol
  | .mit m => m.symbol
  | _ => ""

/-- Accessor `output::get_did_symbol`. -/
def getDidSymbol (o : Output) : String :=
  match o.attach with
  | .didRegister d => d.symbol
  | .didTransfer d => d.symbol
  | _ => ""

/-- Accessor `output::get_did_address`. -/
def getDidAddress (o : Output) : String :=
  match o.attach with
  | .didRegister d => d.address
  | .didTransfer d => d.address
  | _ => ""

/-- Accessor for the cert type of an asset-cert output. -/
def getAssetCertType (o : Output) : AssetCertType :=
  match o.attach with
  | .assetCert c => c.ctype
  | _ => AssetCertType.cnone

/-- Accessor for the symbol of an asset-cert output
(`output::get_asset_cert_symbol`). -/
def getAssetCertSymbol (o : Output) : String :=
  match o.attach with
  | .assetCert c => c.symbol
  | _ => ""

/-- Accessor for the owner of an asset-cert output. -/
def getAssetCertOwner (o : Output) : String :=
  match o.attach with
  | .assetCert c => c.owner
  | _ => ""

/-- Accessor for the issuer of an asset detail
(`output::get_asset_issuer`). -/
def getAssetIssuer (o : Output) : String :=
  match o.attach with
  | .assetIssue d => d.issuer
  | _ => ""

end Output

namespace Transaction

/-- Null previous outpoint: the null hash is modelled as hash `0`. -/
def inputIsNull (i : Input) : Bool :=
  i.prevHash = 0

/-- `transaction::is_coinbase`: a single input with a null previous
outpoint. -/
def isCoinbase (tx : Transaction) : Bool :=
  match tx.inputs with
  | [i] => inputIsNull i
  | _ => false

/-- Modelled from the spec: `transaction::total_output_value`, the `uint64`
sum of the etp values of all outputs. -/
def totalOutputValue (tx : Transaction) : Nat :=
  tx.outputs.foldl (fun a o => (a + o.value) % u64Mod) 0

/-- Modelled from the spec: `transaction::total_output_transfer_amount`,
the `uint64` sum of asset-transfer amounts over the outputs. -/
def totalOutputTransferAmount (tx : Transaction) : Nat :=
  tx.outputs.foldl
    (fun a o => if o.isAssetTransfer then (a + o.getAssetAmount) % u64Mod else a) 0

/-- Modelled from the spec: `transaction::has_asset_transfer`. -/
def hasAssetTransfer (tx : Transaction) : Bool :=
  tx.outputs.any (fun o => o.isAssetTransfer)

/-- Modelled from the spec: `transaction::has_did_transfer`. -/
def hasDidTransfer (tx : Transaction) : Bool :=
  tx.outputs.any (fun o => o.isDidTransfer)

end Transaction

/-- The chain, pool and external oracles the validator consumes, as pure
lookup functions over a fixed snapshot of state. -/
structure Env where
  useTestnetRules : Bool
  /-- The confirmed chain height (sync `get_last_height` and the value
  delivered by async `fetch_last_height`). -/
  lastHeight : Nat
  /-- Error code delivered by async `fetch_last_height`. -/
  lastHeightCode : ErrCode
  /-- Chain transaction lookup by hash: the transaction and its confirmed
  height (`fetch_transaction` / `fetch_transaction_index` /
  `get_transaction`). -/
  chainTxs : Nat → Option (Transaction × Nat)
  /-- Pool transaction lookup by hash (`pool.find`). -/
  poolTxs : Nat → Option Transaction
  /-- Pool membership by hash (`pool.is_in_pool`). -/
  isInPool : Nat → Bool
  /-- Whether any pool transaction already spends an input of the given
  transaction (`pool.is_spent_in_pool`). -/
  isSpentInPool : Transaction → Bool
  /-- Whether the outpoint (hash, index) is unspent on chain
  (`fetch_spend` answering `error::unspent_output`). -/
  isUnspent : Nat → Nat → Bool
  isAssetExist : String → Bool
  isDidExist : String → Bool
  isAssetCertExist : String → AssetCertType → Bool
  /-- Whether a MIT with the symbol is registered (`get_registered_mit`). -/
  mitExists : String → Bool
  /-- Address of a registered DID (`get_registered_did`). -/
  getRegisteredDidAddress : String → Option String
  /-- DID bound to an address, empty when none (`get_did_from_address`). -/
  getDidFromAddress : String → String
  isAddressRegisteredDid : String → Bool
  isValidAddress : String → Bool
  getAssetVolume : String → Nat
  /-- Script consensus verification oracle (`check_consensus` with
  `all_enabled` flags), fed the transaction, previous-output script id and
  input index. -/
  checkConsensus : Transaction → Nat → Nat → Bool
  /-- `bc::wallet::symbol::is_forbidden`. -/
  isForbiddenSymbol : String → Bool
  coinbaseMaturity : Nat
  /-- `attenuation_model::check_model_param(param, supply)`. -/
  checkModelParam : Nat → Nat → Bool
  /-- `attenuation_model::check_model_param(tx, chain)`. -/
  checkModelParamTx : Transaction → ErrCode
  /-- Whether `consensus::miner::get_lock_heights_index` accepts the lock
  height (folding in the `(int)` cast of the source). -/
  lockHeightIndexOk : Nat → Bool
  /-- `chain::output::is_valid_symbol(symbol, version)`. -/
  validAssetSymbol : String → Nat → Bool
  /-- `chain::output::is_valid_did_symbol(symbol, strict)`. -/
  validDidSymbol : String → Bool → Bool
  /-- `chain::output::is_valid_mit_symbol(symbol, strict)`. -/
  validMitSymbol : String → Bool → Bool
  /-- `asset_cert::is_valid_domain`. -/
  isValidDomain : String → Bool

/-- Verdicts delivered to the validation handler: an error code plus the
offending (or unconfirmed) input indices. -/
abbrev Verdict := ErrCode × List Nat

/-- Nova feature gate (`is_nova_feature_activated`): always active on
testnet, past height 1,270,000 on mainnet. -/
def is_nova_feature_activated (env : Env) : Bool :=
  if env.useTestnetRules then true
  else 1270000 < env.lastHeight

/-- The running aggregates of one validation run. -/
structure ConnState where
  value_in : Nat
  asset_amount_in : Nat
  asset_certs_in : List AssetCertType
  old_symbol_in : String
  new_symbol_in : String
  business_kind_in : BusinessKind
deriving DecidableEq, Repr

/-- Aggregates as reset by `set_last_height`. -/
def initConnState : ConnState :=
  { value_in := 0, asset_amount_in := 0, asset_certs_in := [],
    old_symbol_in := "", new_symbol_in := "", business_kind_in := BusinessKind.etp }

/-- The kind- and symbol-dependent aggregate update of `connect_input`:
given the resolved previous output, either fails (symbol disagreement or
duplicate cert) or yields the updated aggregates together with the asset
transfer amount to add and the cert type to record. -/
def connectUpdateKind (prevOut : Output) (s : ConnState) :
    Option (ConnState × Nat × Option AssetCertType) :=
  if prevOut.isAsset then
    let amt := prevOut.getAssetAmount
    let ns := prevOut.getAssetSymbol
    let oldNew : Option String :=
      if ns = "" then some s.old_symbol_in
      else if s.old_symbol_in = "" then some ns
      else if s.old_symbol_in = ns then some s.old_symbol_in
      else none
    match oldNew with
    | none => none
    | some oldSym =>
      let k :=
        if prevOut.isAssetIssue ∨ prevOut.isAssetSecondaryIssue then
          BusinessKind.asset_issue
        else if prevOut.isAssetTransfer then BusinessKind.did_transfer
        else s.business_kind_in
      some ({ s with
                old_symbol_in := oldSym
                new_symbol_in := ns
                business_kind_in := k }, amt, Option.none)
  else if prevOut.isAssetCert then
    let ns := prevOut.getAssetSymbol
    let ct := prevOut.getAssetCertType
    let oldNew : Option String :=
      if s.old_symbol_in = "" then some ns
      else if testCert s.asset_certs_in AssetCertType.domain then
        if getDomain s.old_symbol_in = prevOut.getAssetCertSymbol then
          some s.old_symbol_in
        else none
      else if s.old_symbol_in = ns then some s.old_symbol_in
      else none
    match oldNew with
    | none => none
    | some oldSym =>
      if testCert s.asset_certs_in ct then none
      else
        some ({ s with
                  old_symbol_in := oldSym
                  new_symbol_in := ns
                  business_kind_in := BusinessKind.asset_cert }, 0, some ct)
  else if prevOut.isAssetMit then
    let ns := prevOut.getAssetSymbol
    let oldNew : Option String :=
      if s.old_symbol_in = "" then some ns
      else if s.old_symbol_in = ns then some s.old_symbol_in
      else none
    match oldNew with
    | none => none
    | some oldSym =>
      some ({ s with
                old_symbol_in := oldSym
                new_symbol_in := ns
                business_kind_in := BusinessKind.asset_mit }, 0, Option.none)
  else if prevOut.isDid then
    let ns := prevOut.getDidSymbol
    let oldNew : Option String :=
      if ns = "" then some s.old_symbol_in
      else if s.old_symbol_in = "" then some ns
      else if s.old_symbol_in = ns then some s.old_symbol_in
      else none
    match oldNew with
    | none => none
    | some oldSym =>
      let k :=
        if prevOut.isDidRegister then BusinessKind.did_register
        else if prevOut.isDidTransfer then BusinessKind.did_transfer
        else s.business_kind_in
      some ({ s with
                old_symbol_in := oldSym
                new_symbol_in := ns
                business_kind_in := k }, 0, Option.none)
  else
    some (s, 0, Option.none)

/-- `validate_transaction::connect_input`: resolve the previous output,
update the aggregates, enforce coinbase maturity, forbidden symbols and
script consensus, and accumulate the etp value.  `none` models a `false`
return. -/
def connect_input (env : Env) (tx : Transaction) (current_input : Nat)
    (previous_tx : Transaction) (parent_height last_block_height : Nat)
    (s : ConnState) : Option ConnState :=
  match tx.inputs[current_input]? with
  | none => none
  | some input =>
    match previous_tx.outputs[input.prevIndex]? with
    | none => none
    | some previous_output =>
      if max_money < previous_output.value then none
      else
        match connectUpdateKind previous_output s with
        | none => none
        | some (s1, amt, certOpt) =>
          if previous_tx.isCoinbase ∧
              last_block_height - parent_height < env.coinbaseMaturity then none
          else if previous_output.isAsset ∧
              env.isForbiddenSymbol s1.new_symbol_in then none
          else if env.checkConsensus tx previous_output.scriptId current_input
              = false then none
          else if (s1.value_in + previous_output.value) % u64Mod ≤ max_money then
            some { s1 with
                     value_in := (s1.value_in + previous_output.value) % u64Mod
                     asset_amount_in := (s1.asset_amount_in + amt) % u64Mod
                     asset_certs_in :=
                       match certOpt with
                       | some c => s1.asset_certs_in ++ [c]
                       | none => s1.asset_certs_in }
          else none

/-- `validate_transaction::tally_fees`: requires `value_out ≤ value_in`,
`min_tx_fee ≤ fee` and a running total within `max_money`; returns the new
total. -/
def tally_fees (tx : Transaction) (value_in total_fees : Nat) : Option Nat :=
  if value_in < tx.totalOutputValue then none
  else if value_in - tx.totalOutputValue < min_tx_fee then none
  else if (total_fees + (value_in - tx.totalOutputValue)) % u64Mod ≤ max_money then
    some ((total_fees + (value_in - tx.totalOutputValue)) % u64Mod)
  else none

/-- `validate_transaction::check_asset_amount`: input asset amount equals
the total output transfer amount. -/
def check_asset_amount (tx : Transaction) (s : ConnState) : Bool :=
  decide (s.asset_amount_in = tx.totalOutputTransferAmount)

/-- Output-symbol agreement fold shared by `check_asset_symbol` and
`check_did_symbol_match`. -/
def symbolFold (get : Output → String) : List Output → String → Option String
  | [], old => some old
  | o :: rest, old =>
    let ns := get o
    if ns = "" then symbolFold get rest old
    else if old = "" then symbolFold get rest ns
    else if old = ns then symbolFold get rest old
    else none

/-- `validate_transaction::check_asset_symbol`: all non-empty output asset
symbols agree and match the latched input symbol. -/
def check_asset_symbol (tx : Transaction) (s : ConnState) : Bool :=
  match symbolFold Output.getAssetSymbol tx.outputs "" with
  | none => false
  | some old => decide (old = s.old_symbol_in)

/-- `validate_transaction::check_did_symbol_match`. -/
def check_did_symbol_match (tx : Transaction) (s : ConnState) : Bool :=
  match symbolFold Output.getDidSymbol tx.outputs "" with
  | none => false
  | some old => decide (old = s.old_symbol_in)

/-- Output scan of `check_asset_certs`: collects the output cert types with
the duplicate and symbol checks, recording whether a cert-transfer output
was seen. -/
def certsFold (s : ConnState) :
    List Output → Bool → List AssetCertType → Option (Bool × List AssetCertType)
  | [], ict, outs => some (ict, outs)
  | o :: rest, ict, outs =>
    match o.attach with
    | .assetCert c =>
      let ict' := ict || decide (c.status = CertStatus.certTransfer)
      if testCert outs c.ctype then none
      else if testCert s.asset_certs_in AssetCertType.domain then
        if getDomain c.symbol = s.old_symbol_in then
          certsFold s rest ict' (outs ++ [c.ctype])
        else none
      else if s.old_symbol_in = c.symbol then
        certsFold s rest ict' (outs ++ [c.ctype])
      else none
    | _ =>
      if o.getAssetSymbol ≠ "" then certsFold s rest ict outs
      else if ¬ (o.isEtp ∨ o.isMessage) then none
      else certsFold s rest ict outs

/-- `validate_transaction::check_asset_certs`: output certs conserve the
input cert multiset, with the single-transfer restriction. -/
def check_asset_certs (tx : Transaction) (s : ConnState) : Bool :=
  match certsFold s tx.outputs false [] with
  | none => false
  | some (ict, outs) =>
    if ict ∧ (s.asset_certs_in.length ≠ 1 ∨ outs.length ≠ 1) then false
    else testCerts outs s.asset_certs_in

/-- Output scan of `check_asset_mit`, counting MIT-transfer outputs. -/
def mitFold (s : ConnState) : List Output → Nat → Option Nat
  | [], n => some n
  | o :: rest, n =>
    match o.attach with
    | .mit m =>
      if m.isRegister then
        if ¬ (o.isEtp ∨ o.isMessage) then none else mitFold s rest n
      else
        let n' := n + 1
        if 1 < n' then none
        else if s.old_symbol_in = m.symbol then mitFold s rest n'
        else none
    | _ =>
      if ¬ (o.isEtp ∨ o.isMessage) then none
      else mitFold s rest n

/-- `validate_transaction::check_asset_mit`: exactly one MIT-transfer
output whose symbol matches the latched input symbol, all other outputs
etp or message. -/
def check_asset_mit (tx : Transaction) (s : ConnState) : Bool :=
  match mitFold s tx.outputs 0 with
  | none => false
  | some n => decide (n = 1)

/-- Accumulator of the output scan of `check_secondaryissue_transaction`. -/
structure SecAcc where
  symbol : String
  address : String
  certOwner : String
  threshold : Nat
  amount : Nat
  volume : Nat
  nSec : Nat
  nTransfer : Nat
  nCert : Nat
  certsOut : List AssetCertType
deriving DecidableEq, Repr

/-- Initial secondary-issue accumulator. -/
def initSecAcc : SecAcc :=
  { symbol := "", address := "", certOwner := "", threshold := 0,
    amount := 0, volume := 0, nSec := 0, nTransfer := 0, nCert := 0,
    certsOut := [] }

/-- Output scan of `check_secondaryissue_transaction`. -/
def secondaryissueScan (env : Env) : List Output → SecAcc → Except ErrCode SecAcc
  | [], acc => Except.ok acc
  | o :: rest, acc =>
    if o.isAssetSecondaryIssue then
      if 1 < acc.nSec + 1 then Except.error ErrCode.asset_secondaryissue_error
      else
        match o.attach with
        | .assetIssue d =>
          if d.secondaryFlag = false ∨
              is_secondaryissue_threshold_value_ok d.threshold = false then
            Except.error ErrCode.asset_secondaryissue_threshold_invalid
          else
            match checkSame acc.symbol d.symbol with
            | none => Except.error ErrCode.asset_secondaryissue_error
            | some sym =>
              match checkSame acc.address d.address with
              | none => Except.error ErrCode.asset_secondaryissue_error
              | some addr =>
                if o.payAttenuationPattern ∧
                    env.checkModelParam o.attenuationParam d.maxSupply = false then
                  Except.error ErrCode.attenuation_model_param_error
                else
                  secondaryissueScan env rest
                    { acc with
                        symbol := sym
                        address := addr
                        threshold := d.threshold
                        amount := d.maxSupply
                        nSec := acc.nSec + 1 }
        | _ => Except.error ErrCode.asset_secondaryissue_error
    else if o.isAssetTransfer then
      match o.attach with
      | .assetTransfer t =>
        match checkSame acc.symbol t.symbol with
        | none => Except.error ErrCode.asset_secondaryissue_error
        | some sym =>
          match checkSame acc.address o.scriptAddress with
          | none => Except.error ErrCode.asset_secondaryissue_error
          | some addr =>
            secondaryissueScan env rest
              { acc with
                  symbol := sym
                  address := addr
                  volume := (acc.volume + t.quantity) % u64Mod
                  nTransfer := acc.nTransfer + 1 }
      | _ => Except.error ErrCode.asset_secondaryissue_error
    else if o.isAssetCert then
      if 1 < acc.nCert + 1 then Except.error ErrCode.asset_secondaryissue_error
      else
        match o.attach with
        | .assetCert c =>
          if c.ctype = AssetCertType.issue then
            match checkSame acc.symbol c.symbol with
            | none => Except.error ErrCode.asset_secondaryissue_error
            | some sym =>
              match checkSame acc.certOwner c.owner with
              | none => Except.error ErrCode.asset_secondaryissue_error
              | some owner =>
                secondaryissueScan env rest
                  { acc with
                      symbol := sym
                      certOwner := owner
                      nCert := acc.nCert + 1
                      certsOut := acc.certsOut ++ [c.ctype] }
          else Except.error ErrCode.asset_secondaryissue_error
        | _ => Except.error ErrCode.asset_secondaryissue_error
    else if ¬ (o.isEtp ∨ o.isMessage) then
      Except.error ErrCode.asset_secondaryissue_error
    else secondaryissueScan env rest acc

/-- Input-address check at the end of `check_secondaryissue_transaction`:
asset inputs must come from the declared asset address, cert inputs must be
issue certs of the same symbol.  An out-of-range previous index models the
raising `.at` access as a failure. -/
def secondaryissueInputs (env : Env) (acc : SecAcc) : List Input → ErrCode
  | [] => ErrCode.success
  | inp :: rest =>
    match env.chainTxs inp.prevHash with
    | none => ErrCode.input_not_found
    | some (ptx, _) =>
      match ptx.outputs[inp.prevIndex]? with
      | none => ErrCode.validate_inputs_failed
      | some po =>
        if po.isAsset ∨ po.isAssetCert then
          if po.isAssetCert then
            if po.getAssetCertSymbol ≠ acc.symbol ∨
                po.getAssetCertType ≠ AssetCertType.issue then
              ErrCode.validate_inputs_failed
            else secondaryissueInputs env acc rest
          else if acc.address ≠ po.scriptAddress then
            ErrCode.validate_inputs_failed
          else secondaryissueInputs env acc rest
        else secondaryissueInputs env acc rest

/-- `validate_transaction::check_secondaryissue_transaction`. -/
def check_secondaryissue_transaction (env : Env) (tx : Transaction) : ErrCode :=
  if tx.outputs.any (fun o => o.isAssetSecondaryIssue) = false then
    ErrCode.success
  else
    match secondaryissueScan env tx.outputs initSecAcc with
    | Except.error e => e
    | Except.ok acc =>
      if tv_check_nova_feature ≤ tx.version ∧
          testCert acc.certsOut AssetCertType.issue = false then
        ErrCode.asset_cert_error
      else
        let total := env.getAssetVolume acc.symbol
        if max_uint64 - acc.amount < total then
          ErrCode.asset_secondaryissue_error
        else if is_secondaryissue_owns_enough acc.volume total acc.threshold
            = false then
          ErrCode.asset_secondaryissue_share_not_enough
        else secondaryissueInputs env acc tx.inputs

/-- Accumulator of the output scan of `check_asset_issue_transaction`. -/
structure IssueAcc where
  seenIssue : Bool
  nCertIssue : Nat
  nDomainOrNaming : Nat
  certMask : List AssetCertType
  certTypes : List AssetCertType
  symbol : String
  address : String
  certOwner : String
deriving DecidableEq, Repr

/-- Initial asset-issue accumulator. -/
def initIssueAcc : IssueAcc :=
  { seenIssue := false, nCertIssue := 0, nDomainOrNaming := 0,
    certMask := [], certTypes := [], symbol := "", address := "",
    certOwner := "" }

/-- Output scan of `check_asset_issue_transaction`. -/
def assetIssueScan (env : Env) : List Output → IssueAcc → Except ErrCode IssueAcc
  | [], acc => Except.ok acc
  | o :: rest, acc =>
    if o.isAssetIssue then
      if acc.seenIssue then Except.error ErrCode.asset_issue_error
      else
        match o.attach with
        | .assetIssue d =>
          if is_secondaryissue_threshold_value_ok d.threshold = false then
            Except.error ErrCode.asset_secondaryissue_threshold_invalid
          else
            match checkSame acc.symbol d.symbol with
            | none => Except.error ErrCode.asset_issue_error
            | some sym =>
              match checkSame acc.address d.address with
              | none => Except.error ErrCode.asset_issue_error
              | some addr =>
                if env.isAssetExist sym then Except.error ErrCode.asset_exist
                else if o.payAttenuationPattern ∧
                    env.checkModelParam o.attenuationParam d.maxSupply = false then
                  Except.error ErrCode.attenuation_model_param_error
                else
                  assetIssueScan env rest
                    { acc with
                        seenIssue := true
                        symbol := sym
                        address := addr
                        certMask := d.certMask }
        | _ => Except.error ErrCode.asset_issue_error
    else if o.isAssetCert then
      match o.attach with
      | .assetCert c =>
        if c.ctype = AssetCertType.issue then
          if 1 < acc.nCertIssue + 1 then Except.error ErrCode.asset_issue_error
          else
            match checkSame acc.symbol c.symbol with
            | none => Except.error ErrCode.asset_issue_error
            | some sym =>
              match checkSame acc.address o.scriptAddress with
              | none => Except.error ErrCode.asset_issue_error
              | some addr =>
                assetIssueScan env rest
                  { acc with
                      nCertIssue := acc.nCertIssue + 1
                      symbol := sym
                      address := addr
                      certTypes := acc.certTypes ++ [c.ctype] }
        else if c.ctype = AssetCertType.domain then
          if 1 < acc.nDomainOrNaming + 1 then
            Except.error ErrCode.asset_issue_error
          else if acc.symbol ≠ "" ∧ getDomain acc.symbol ≠ c.symbol then
            Except.error ErrCode.asset_issue_error
          else
            match checkSame acc.certOwner c.owner with
            | none => Except.error ErrCode.asset_issue_error
            | some owner =>
              assetIssueScan env rest
                { acc with
                    nDomainOrNaming := acc.nDomainOrNaming + 1
                    certOwner := owner
                    certTypes := acc.certTypes ++ [c.ctype] }
        else if c.ctype = AssetCertType.naming then
          if 1 < acc.nDomainOrNaming + 1 then
            Except.error ErrCode.asset_issue_error
          else
            match checkSame acc.symbol c.symbol with
            | none => Except.error ErrCode.asset_issue_error
            | some sym =>
              match checkSame acc.certOwner c.owner with
              | none => Except.error ErrCode.asset_issue_error
              | some owner =>
                assetIssueScan env rest
                  { acc with
                      nDomainOrNaming := acc.nDomainOrNaming + 1
                      symbol := sym
                      certOwner := owner
                      certTypes := acc.certTypes ++ [c.ctype] }
        else Except.error ErrCode.asset_issue_error
      | _ => Except.error ErrCode.asset_issue_error
    else if ¬ (o.isEtp ∨ o.isMessage) then
      Except.error ErrCode.asset_issue_error
    else assetIssueScan env rest acc

/-- `validate_transaction::check_asset_issue_transaction`. -/
def check_asset_issue_transaction (env : Env) (tx : Transaction) : ErrCode :=
  if tx.outputs.any (fun o => o.isAssetIssue) = false then ErrCode.success
  else
    match assetIssueScan env tx.outputs initIssueAcc with
    | Except.error e => e
    | Except.ok acc =>
      if tv_check_nova_feature ≤ tx.version then
        if testCerts acc.certTypes acc.certMask = false then
          ErrCode.asset_issue_error
        else if env.isValidDomain (getDomain acc.symbol) then
          if acc.certOwner = "" then ErrCode.asset_cert_error
          else if acc.nDomainOrNaming < 1 then ErrCode.asset_cert_not_provided
          else ErrCode.success
        else ErrCode.success
      else ErrCode.success

/-- Accumulator of the output scan of `check_asset_cert_issue_transaction`. -/
structure CertIssueAcc where
  nCertIssue : Nat
  nDomain : Nat
  issueCertType : AssetCertType
  certTypes : List AssetCertType
  symbol : String
  certOwner : String
deriving DecidableEq, Repr

/-- Initial cert-issue accumulator. -/
def initCertIssueAcc : CertIssueAcc :=
  { nCertIssue := 0, nDomain := 0, issueCertType := AssetCertType.cnone,
    certTypes := [], symbol := "", certOwner := "" }

/-- Output scan of `check_asset_cert_issue_transaction`. -/
def certIssueScan (env : Env) :
    List Output → CertIssueAcc → Except ErrCode CertIssueAcc
  | [], acc => Except.ok acc
  | o :: rest, acc =>
    if o.isAssetCertIssue then
      if 1 < acc.nCertIssue + 1 then Except.error ErrCode.asset_cert_issue_error
      else
        match o.attach with
        | .assetCert c =>
          match checkSame acc.symbol c.symbol with
          | none => Except.error ErrCode.asset_cert_issue_error
          | some sym =>
            if env.isAssetCertExist sym c.ctype then
              Except.error ErrCode.asset_cert_exist
            else
              certIssueScan env rest
                { acc with
                    nCertIssue := acc.nCertIssue + 1
                    symbol := sym
                    issueCertType := c.ctype }
        | _ => Except.error ErrCode.asset_cert_issue_error
    else if o.isAssetCert then
      match o.attach with
      | .assetCert c =>
        if c.ctype = AssetCertType.domain then
          if acc.issueCertType ≠ AssetCertType.naming then
            Except.error ErrCode.asset_cert_issue_error
          else if 1 < acc.nDomain + 1 then
            Except.error ErrCode.asset_cert_issue_error
          else if acc.symbol ≠ "" ∧ getDomain acc.symbol ≠ c.symbol then
            Except.error ErrCode.asset_cert_issue_error
          else
            match env.getRegisteredDidAddress c.owner with
            | none => Except.error ErrCode.asset_cert_issue_error
            | some didAddr =>
              if c.address ≠ didAddr then
                Except.error ErrCode.asset_cert_issue_error
              else
                certIssueScan env rest
                  { acc with
                      nDomain := acc.nDomain + 1
                      certOwner := c.owner
                      certTypes := acc.certTypes ++ [c.ctype] }
        else Except.error ErrCode.asset_cert_issue_error
      | _ => Except.error ErrCode.asset_cert_issue_error
    else if ¬ (o.isEtp ∨ o.isMessage) then
      Except.error ErrCode.asset_cert_issue_error
    else certIssueScan env rest acc

/-- `validate_transaction::check_asset_cert_issue_transaction`. -/
def check_asset_cert_issue_transaction (env : Env) (tx : Transaction) : ErrCode :=
  if tx.outputs.any (fun o => o.isAssetCertIssue) = false then ErrCode.success
  else
    match certIssueScan env tx.outputs initCertIssueAcc with
    | Except.error e => e
    | Except.ok acc =>
      if acc.issueCertType = AssetCertType.cnone then
        ErrCode.asset_cert_issue_error
      else if acc.issueCertType = AssetCertType.naming then
        if testCert acc.certTypes AssetCertType.domain = false ∨
            acc.certOwner = "" then
          ErrCode.asset_cert_issue_error
        else if env.isAssetExist acc.symbol then ErrCode.asset_exist
        else ErrCode.success
      else ErrCode.success

/-- Output scan of `check_asset_mit_register_transaction`: collects the
register symbol and the common address, checking each register symbol
against the chain. -/
def mitRegisterScan (env : Env) :
    List Output → String → String → Except ErrCode (String × String)
  | [], sym, addr => Except.ok (sym, addr)
  | o :: rest, sym, addr =>
    if o.isAssetMitRegister then
      match o.attach with
      | .mit m =>
        match checkSame addr m.address with
        | none => Except.error ErrCode.mit_exist
        | some addr' =>
          if env.mitExists m.symbol then Except.error ErrCode.mit_exist
          else mitRegisterScan env rest m.symbol addr'
      | _ => Except.error ErrCode.mit_register_error
    else if ¬ (o.isEtp ∨ o.isMessage) then
      Except.error ErrCode.mit_register_error
    else mitRegisterScan env rest sym addr

/-- Etp-input address check of `check_asset_mit_register_transaction`. -/
def mitRegisterInputs (env : Env) (addr : String) : List Input → ErrCode
  | [] => ErrCode.success
  | inp :: rest =>
    match env.chainTxs inp.prevHash with
    | none => ErrCode.input_not_found
    | some (ptx, _) =>
      match ptx.outputs[inp.prevIndex]? with
      | none => ErrCode.validate_inputs_failed
      | some po =>
        if po.isEtp then
          if addr ≠ po.scriptAddress then ErrCode.validate_inputs_failed
          else mitRegisterInputs env addr rest
        else mitRegisterInputs env addr rest

/-- `validate_transaction::check_asset_mit_register_transaction`. -/
def check_asset_mit_register_transaction (env : Env) (tx : Transaction) : ErrCode :=
  if tx.outputs.any (fun o => o.isAssetMitRegister) = false then ErrCode.success
  else
    match mitRegisterScan env tx.outputs "" "" with
    | Except.error e => e
    | Except.ok (_, addr) => mitRegisterInputs env addr tx.inputs

/-- Input scan of `connect_input_address_match_did`: some input must spend
an output whose address resolves to the given DID; an unresolvable
previous transaction fails. -/
def fromDidMatchLoop (env : Env) (fromDid : String) : List Input → Bool
  | [] => false
  | inp :: rest =>
    match env.chainTxs inp.prevHash with
    | none => false
    | some (ptx, _) =>
      match ptx.outputs[inp.prevIndex]? with
      | none => false
      | some po =>
        if fromDid = env.getDidFromAddress po.scriptAddress then true
        else fromDidMatchLoop env fromDid rest

/-- `validate_transaction::connect_input_address_match_did`: when the
output carries a `from_did`, some input must spend an output whose address
resolves to that DID. -/
def connect_input_address_match_did (env : Env) (tx : Transaction)
    (o : Output) : Bool :=
  if o.fromDid = "" then true
  else fromDidMatchLoop env o.fromDid tx.inputs

/-- Input scan of `connect_did_input`: accumulates whether a did output
with the right symbol and an etp output at the right address were found;
`none` models an unresolvable previous transaction (or a raising `.at`). -/
def didInputLoop (env : Env) (status : Nat) (sym addr : String) :
    List Input → Bool → Bool → Option (Bool × Bool)
  | [], fd, fa => some (fd, fa)
  | inp :: rest, fd, fa =>
    match env.chainTxs inp.prevHash with
    | none => none
    | some (ptx, _) =>
      match ptx.outputs[inp.prevIndex]? with
      | none => none
      | some po =>
        if po.isDidRegister ∨ po.isDidTransfer then
          didInputLoop env status sym addr rest
            (if status = DID_TRANSFERABLE_TYPE ∧ sym = po.getDidSymbol then
              true
            else fd) fa
        else if po.isEtp then
          didInputLoop env status sym addr rest fd
            (if addr = po.scriptAddress then true else fa)
        else didInputLoop env status sym addr rest fd fa

/-- `validate_transaction::connect_did_input`: a transfer needs exactly two
inputs, one spending the prior did output of the symbol and one spending an
etp output at the DID's address; a registration needs the latter only. -/
def connect_did_input (env : Env) (tx : Transaction) (status : Nat)
    (sym addr : String) : Bool :=
  if status = DID_TRANSFERABLE_TYPE ∧ tx.inputs.length ≠ 2 then false
  else
    match didInputLoop env status sym addr tx.inputs false false with
    | none => false
    | some (fd, fa) =>
      (fd && fa && decide (status = DID_TRANSFERABLE_TYPE)) ||
        (fa && decide (status = DID_DETAIL_TYPE))

/-- Modelled from the spec: `output::check_attachment_address` — the
output's attached address, when present, must be a valid address. -/
def check_attachment_address (env : Env) (o : Output) : ErrCode :=
  if o.attachAddress = "" ∨ env.isValidAddress o.attachAddress then
    ErrCode.success
  else ErrCode.did_address_not_match

/-- Modelled from the spec: `output::check_attachment_did_match_address` —
when the output carries a `to_did`, the attached address must resolve to
that DID on chain. -/
def check_attachment_did_match_address (env : Env) (o : Output) : ErrCode :=
  if o.toDid = "" ∨ env.getDidFromAddress o.attachAddress = o.toDid then
    ErrCode.success
  else ErrCode.did_address_not_match

/-- Per-output step of `check_did_transaction`, threading the latched did
type (`255` when not yet latched). -/
def didCheckOutput (env : Env) (tx : Transaction) (o : Output) (ty : Nat) :
    Except ErrCode Nat :=
  if check_attachment_address env o ≠ ErrCode.success then
    Except.error (check_attachment_address env o)
  else if check_attachment_did_match_address env o ≠ ErrCode.success then
    Except.error (check_attachment_did_match_address env o)
  else if connect_input_address_match_did env tx o = false then
    Except.error ErrCode.did_address_not_match
  else if o.isDidRegister then
    if env.isValidAddress o.getDidSymbol then
      Except.error ErrCode.did_symbol_invalid
    else if env.isDidExist o.getDidSymbol then Except.error ErrCode.did_exist
    else if env.isAddressRegisteredDid o.getDidAddress then
      Except.error ErrCode.address_registered_did
    else if ty ≠ 255 then Except.error ErrCode.did_multi_type_exist
    else if connect_did_input env tx DID_DETAIL_TYPE o.getDidSymbol
        o.getDidAddress = false then
      Except.error ErrCode.did_input_error
    else Except.ok DID_DETAIL_TYPE
  else if o.isDidTransfer then
    if env.isDidExist o.getDidSymbol = false then
      Except.error ErrCode.did_not_exist
    else if env.isAddressRegisteredDid o.getDidAddress then
      Except.error ErrCode.address_registered_did
    else if ty ≠ 255 then Except.error ErrCode.did_multi_type_exist
    else if connect_did_input env tx DID_TRANSFERABLE_TYPE o.getDidSymbol
        o.getDidAddress = false then
      Except.error ErrCode.did_input_error
    else Except.ok DID_TRANSFERABLE_TYPE
  else if o.isAssetIssue ∨ o.isAssetSecondaryIssue then
    if o.attachVersion = DID_ATTACH_VERIFY_VERSION ∧
        o.getAssetIssuer ≠ o.toDid then
      Except.error ErrCode.asset_did_registerr_not_match
    else Except.ok ty
  else if o.isAssetCert then
    if o.attachVersion = DID_ATTACH_VERIFY_VERSION ∧
        o.getAssetCertOwner ≠ o.toDid then
      Except.error ErrCode.asset_did_registerr_not_match
    else Except.ok ty
  else Except.ok ty

/-- Output loop of `check_did_transaction`. -/
def didLoop (env : Env) (tx : Transaction) : List Output → Nat → ErrCode
  | [], _ => ErrCode.success
  | o :: rest, ty =>
    match didCheckOutput env tx o ty with
    | Except.error e => e
    | Except.ok ty' => didLoop env tx rest ty'

/-- `validate_transaction::check_did_transaction`. -/
def check_did_transaction (env : Env) (tx : Transaction) : ErrCode :=
  didLoop env tx tx.outputs 255

/-- Per-output value check of `check_transaction_basic`: no value above
`max_money` and no running-total overflow. -/
def checkOutputValues : List Output → Nat → Option ErrCode
  | [], _ => none
  | o :: rest, total =>
    if max_money < o.value then some ErrCode.output_value_overflow
    else
      let t := (total + o.value) % u64Mod
      if max_money < t then some ErrCode.output_value_overflow
      else checkOutputValues rest t

/-- Per-output symbol/attachment check of `check_transaction_basic`. -/
def checkOutputSymbols (env : Env) (version : Nat) : List Output → Option ErrCode
  | [] => none
  | o :: rest =>
    let kindErr : Option ErrCode :=
      if o.isAssetIssue then
        if env.validAssetSymbol o.getAssetSymbol version = false then
          some ErrCode.asset_symbol_invalid
        else none
      else if o.isAssetCert then
        if env.isDidExist o.getAssetCertOwner = false then
          some ErrCode.did_address_needed
        else none
      else if o.isDidRegister then
        if env.validDidSymbol o.getDidSymbol (!env.useTestnetRules) = false then
          some ErrCode.did_symbol_invalid
        else none
      else if o.isAssetMitRegister then
        if env.validMitSymbol o.getAssetSymbol true = false then
          some ErrCode.mit_symbol_invalid
        else none
      else none
    match kindErr with
    | some e => some e
    | none =>
      if tv_check_nova_feature ≤ version ∧ o.attachValid = false then
        some ErrCode.attachment_invalid
      else checkOutputSymbols env version rest

/-- Per-input basic check for non-coinbase transactions: no null previous
outpoint; inputs whose script carries a sign-key-hash-with-lock-height must
spend a confirmed output old enough for the lock height. -/
def checkInputsBasic (env : Env) : List Input → Option ErrCode
  | [] => none
  | inp :: rest =>
    if Transaction.inputIsNull inp then some ErrCode.previous_output_null
    else
      match inp.signLockHeight with
      | some lockHeight =>
        match env.chainTxs inp.prevHash with
        | none => some ErrCode.input_not_found
        | some (_, prevHeight) =>
          if env.lastHeight - prevHeight < lockHeight then
            some ErrCode.invalid_input_script_lock_height
          else checkInputsBasic env rest
      | none => checkInputsBasic env rest

/-- Per-output lock-height pattern check for non-coinbase transactions. -/
def checkOutputsLockHeight (env : Env) : List Output → Option ErrCode
  | [] => none
  | o :: rest =>
    match o.payLockHeight with
    | some h =>
      if env.lockHeightIndexOk h = false then
        some ErrCode.invalid_output_script_lock_height
      else checkOutputsLockHeight env rest
    | none => checkOutputsLockHeight env rest

/-- `validate_transaction::check_transaction_basic`. -/
def check_transaction_basic (env : Env) (tx : Transaction) : ErrCode :=
  if tv_max_version ≤ tx.version then ErrCode.transaction_version_error
  else if tx.version = tv_check_nova_feature ∧
      is_nova_feature_activated env = false then
    ErrCode.nova_feature_not_activated
  else if tx.version = tv_check_nova_testnet ∧ env.useTestnetRules = false then
    ErrCode.transaction_version_error
  else if tv_check_output_script ≤ tx.version ∧
      tx.outputs.any (fun o => o.scriptNonStandard) then
    ErrCode.script_not_standard
  else if tx.inputs.isEmpty ∨ tx.outputs.isEmpty then ErrCode.empty_transaction
  else if max_transaction_size < tx.serializedSize then ErrCode.size_limits
  else
    match checkOutputValues tx.outputs 0 with
    | some e => e
    | none =>
      match checkOutputSymbols env tx.version tx.outputs with
      | some e => e
      | none =>
        if tx.isCoinbase then
          match tx.inputs with
          | [cb] =>
            if cb.scriptSize < 2 ∨ 100 < cb.scriptSize then
              ErrCode.invalid_coinbase_script_size
            else ErrCode.success
          | _ => ErrCode.success
        else
          match checkInputsBasic env tx.inputs with
          | some e => e
          | none =>
            match checkOutputsLockHeight env tx.outputs with
            | some e => e
            | none =>
              if tv_check_nova_feature ≤ tx.version then
                env.checkModelParamTx tx
              else ErrCode.success

/-- `validate_transaction::check_transaction`: the six checks in order. -/
def check_transaction (env : Env) (tx : Transaction) : ErrCode :=
  if check_transaction_basic env tx ≠ ErrCode.success then
    check_transaction_basic env tx
  else if check_asset_issue_transaction env tx ≠ ErrCode.success then
    check_asset_issue_transaction env tx
  else if check_asset_cert_issue_transaction env tx ≠ ErrCode.success then
    check_asset_cert_issue_transaction env tx
  else if check_secondaryissue_transaction env tx ≠ ErrCode.success then
    check_secondaryissue_transaction env tx
  else if check_asset_mit_register_transaction env tx ≠ ErrCode.success then
    check_asset_mit_register_transaction env tx
  else check_did_transaction env tx

/-- `validate_transaction::is_standard` is hard-coded to `true`. -/
def is_standard : Bool := true

/-- `validate_transaction::basic_checks`: full transaction check, coinbase
rejection, standardness, mempool duplicate. -/
def basic_checks (env : Env) (tx : Transaction) : ErrCode :=
  if check_transaction env tx ≠ ErrCode.success then check_transaction env tx
  else if tx.isCoinbase then ErrCode.coinbase_transaction
  else if is_standard = false then ErrCode.is_not_standard
  else if env.isInPool tx.txHash then ErrCode.duplicate
  else ErrCode.success

/-- The per-input resolution loop of the orchestrator (steps 6a–6d):
resolve each previous transaction against the chain, falling back to the
pool; run `connect_input`; check the outpoint is unspent; record
pool-resolved indices.  `Except.error` carries the verdict of an aborting
handler invocation. -/
def connectAllInputs (env : Env) (tx : Transaction) (lastH : Nat) :
    List (Nat × Input) → ConnState → List Nat →
    Except Verdict (ConnState × List Nat)
  | [], s, unconf => Except.ok (s, unconf)
  | (i, inp) :: rest, s, unconf =>
    match env.chainTxs inp.prevHash with
    | some (ptx, parentH) =>
      match connect_input env tx i ptx parentH lastH s with
      | none => Except.error (ErrCode.validate_inputs_failed, [i])
      | some s' =>
        if env.isUnspent inp.prevHash inp.prevIndex then
          connectAllInputs env tx lastH rest s' unconf
        else Except.error (ErrCode.double_spend, [])
    | none =>
      match env.poolTxs inp.prevHash with
      | none => Except.error (ErrCode.input_not_found, [i])
      | some ptx =>
        match connect_input env tx i ptx 0 lastH s with
        | none => Except.error (ErrCode.validate_inputs_failed, [i])
        | some s' =>
          if env.isUnspent inp.prevHash inp.prevIndex then
            connectAllInputs env tx lastH rest s' (unconf ++ [i])
          else Except.error (ErrCode.double_spend, [])

/-- Tail of `check_fees` after the business-kind asset checks: the DID
symbol check followed by the success verdict. -/
def checkFeesDidPart (tx : Transaction) (s : ConnState)
    (unconf : List Nat) : Verdict :=
  if (s.business_kind_in = BusinessKind.did_register ∨
      s.business_kind_in = BusinessKind.did_transfer) ∧
      tx.hasDidTransfer then
    if check_did_symbol_match tx s = false then
      (ErrCode.did_symbol_not_match, [])
    else (ErrCode.success, unconf)
  else (ErrCode.success, unconf)

/-- `validate_transaction::check_fees`: fee tally followed by the
business-kind-conditional conservation checks; returns the single verdict
passed to the handler. -/
def checkFees (_env : Env) (tx : Transaction) (s : ConnState)
    (unconf : List Nat) : Verdict :=
  match tally_fees tx s.value_in 0 with
  | none => (ErrCode.fees_out_of_range, [])
  | some _ =>
    if s.business_kind_in = BusinessKind.asset_issue ∨
        s.business_kind_in = BusinessKind.asset_transfer then
      if tx.hasAssetTransfer then
        if check_asset_amount tx s = false then
          (ErrCode.asset_amount_not_equal, [])
        else if check_asset_symbol tx s = false then
          (ErrCode.asset_symbol_not_match, [])
        else checkFeesDidPart tx s unconf
      else checkFeesDidPart tx s unconf
    else if s.business_kind_in = BusinessKind.asset_cert then
      if check_asset_certs tx s = false then (ErrCode.asset_cert_error, [])
      else checkFeesDidPart tx s unconf
    else if s.business_kind_in = BusinessKind.asset_mit then
      if check_asset_mit tx s = false then (ErrCode.mit_error, [])
      else checkFeesDidPart tx s unconf
    else checkFeesDidPart tx s unconf

/-- The orchestrator `start(handler)`: the list of handler invocations
performed for the given transaction against the given chain and pool
snapshot.  The early `input_not_found` path reports the not-yet-initialized
current input index, modelled as `0`; the guard on empty inputs before the
resolution loop mirrors `set_last_height` and yields no invocation at
all in that (unreachable) case. -/
def startCalls (env : Env) (tx : Transaction) : List Verdict :=
  if basic_checks env tx = ErrCode.input_not_found then
    [(basic_checks env tx, [0])]
  else if basic_checks env tx ≠ ErrCode.success then [(basic_checks env tx, [])]
  else if (env.chainTxs tx.txHash).isSome then [(ErrCode.duplicate, [])]
  else if env.isSpentInPool tx then [(ErrCode.double_spend, [])]
  else if env.lastHeightCode ≠ ErrCode.success then [(env.lastHeightCode, [])]
  else if tx.inputs.isEmpty then []
  else
    match connectAllInputs env tx env.lastHeight tx.inputs.enum
        initConnState [] with
    | Except.error v => [v]
    | Except.ok (s, unconf) => [checkFees env tx s unconf]

/-- Final aggregate state of a run whose inputs all resolve and connect. -/
def finalState (env : Env) (tx : Transaction) : Option (ConnState × List Nat) :=
  (connectAllInputs env tx env.lastHeight tx.inputs.enum initConnState []).toOption

/-- A plain etp output template for concrete scenarios. -/
def baseOutput : Output :=
  { value := 0, attach := Attach.etp, scriptAddress := "A", scriptId := 0,
    scriptNonStandard := false, payAttenuationPattern := false,
    attenuationParam := 0, payLockHeight := none, attachValid := true,
    attachVersion := 0, fromDid := "", toDid := "", attachAddress := "" }

/-- An input template for concrete scenarios. -/
def baseInput (h idx : Nat) : Input :=
  { prevHash := h, prevIndex := idx, scriptSize := 10, signLockHeight := none }

/-- A benign environment template for concrete scenarios: mainnet, empty
chain and pool, all oracles permissive. -/
def defEnv : Env :=
  { useTestnetRules := false
    lastHeight := 50
    lastHeightCode := ErrCode.success
    chainTxs := fun _ => none
    poolTxs := fun _ => none
    isInPool := fun _ => false
    isSpentInPool := fun _ => false
    isUnspent := fun _ _ => true
    isAssetExist := fun _ => false
    isDidExist := fun _ => false
    isAssetCertExist := fun _ _ => false
    mitExists := fun _ => false
    getRegisteredDidAddress := fun _ => none
    getDidFromAddress := fun _ => ""
    isAddressRegisteredDid := fun _ => false
    isValidAddress := fun _ => false
    getAssetVolume := fun _ => 0
    checkConsensus := fun _ _ _ => true
    isForbiddenSymbol := fun _ => false
    coinbaseMaturity := 100
    checkModelParam := fun _ _ => true
    checkModelParamTx := fun _ => ErrCode.success
    lockHeightIndexOk := fun _ => true
    validAssetSymbol := fun _ _ => true
    validDidSymbol := fun _ _ => true
    validMitSymbol := fun _ _ => true
    isValidDomain := fun _ => false }

/-- Confirmed transaction holding an asset-issue output of 1000 ABC plus
20000 etp (hash 1). -/
def prevTxAssetIssue : Transaction :=
  { version := 1
    inputs := [baseInput 9 0]
    outputs := [{ baseOutput with
                    value := 20000
                    attach := Attach.assetIssue
                      { symbol := "ABC", address := "A", maxSupply := 1000,
                        threshold := 30, secondaryFlag := false,
                        certMask := [], issuer := "I" } }]
    txHash := 1
    serializedSize := 100 }

/-- Candidate spending the asset-issue output into a pure etp output: the
1000 ABC of the input vanish while the asset conservation check is
skipped. -/
def tx1 : Transaction :=
  { version := 1
    inputs := [baseInput 1 0]
    outputs := [{ baseOutput with value := 10000 }]
    txHash := 100
    serializedSize := 100 }

/-- Environment whose chain holds `prevTxAssetIssue` at height 10. -/
def env1 : Env :=
  { defEnv with
      chainTxs := fun h => if h = 1 then some (prevTxAssetIssue, 10) else none }

/-- Candidate spending the asset-issue output into an etp output and an
asset-transfer output of the full 1000 ABC. -/
def tx2 : Transaction :=
  { version := 1
    inputs := [baseInput 1 0]
    outputs := [{ baseOutput with value := 10000 },
                { baseOutput with
                    value := 0
                    attach := Attach.assetTransfer
                      { symbol := "ABC", quantity := 1000 } }]
    txHash := 101
    serializedSize := 100 }

/-- Confirmed transaction holding a 20000 etp output (hash 2). -/
def prevTxEtp : Transaction :=
  { version := 1
    inputs := [baseInput 9 0]
    outputs := [{ baseOutput with value := 20000 }]
    txHash := 2
    serializedSize := 100 }

/-- Environment whose chain holds `prevTxEtp` at height 10. -/
def env3 : Env :=
  { defEnv with
      chainTxs := fun h => if h = 2 then some (prevTxEtp, 10) else none }

/-- One 20000 etp input, one 10000 etp output: fee exactly `min_tx_fee`. -/
def tx3 : Transaction :=
  { version := 1
    inputs := [baseInput 2 0]
    outputs := [{ baseOutput with value := 10000 }]
    txHash := 101
    serializedSize := 100 }

/-- One 20000 etp input, one 10001 etp output: fee 9999, below
`min_tx_fee`. -/
def tx4 : Transaction :=
  { version := 1
    inputs := [baseInput 2 0]
    outputs := [{ baseOutput with value := 10001 }]
    txHash := 102
    serializedSize := 100 }

/-- Confirmed transaction holding an asset-transfer output of 500 ABC
(hash 3). -/
def prevTxAssetTransferOut : Transaction :=
  { version := 1
    inputs := [baseInput 9 0]
    outputs := [{ baseOutput with
                    value := 20000
                    attach := Attach.assetTransfer
                      { symbol := "ABC", quantity := 500 } }]
    txHash := 3
    serializedSize := 100 }

/-- Issue cert payload used by the cert-input witnesses. -/
def certInfoA : CertInfo :=
  { symbol := "ABC", owner := "O", address := "A",
    ctype := AssetCertType.issue, status := CertStatus.normal }

/-- Confirmed transaction holding an asset-cert output (hash 4). -/
def prevTxCert (c : CertInfo) : Transaction :=
  { version := 1
    inputs := [baseInput 9 0]
    outputs := [{ baseOutput with
                    value := 20000
                    attach := Attach.assetCert c }]
    txHash := 4
    serializedSize := 100 }

/-- Confirmed coinbase transaction (hash 5), confirmed at height 10 in the
maturity scenarios. -/
def prevTxCoinbase : Transaction :=
  { version := 1
    inputs := [baseInput 0 0]
    outputs := [{ baseOutput with value := 20000 }]
    txHash := 5
    serializedSize := 100 }

/-- Chain at height 109 = 10 + maturity - 1 holding the coinbase. -/
def env5a : Env :=
  { defEnv with
      chainTxs := fun h => if h = 5 then some (prevTxCoinbase, 10) else none
      lastHeight := 109 }

/-- Chain at height 110 = 10 + maturity holding the coinbase. -/
def env5b : Env :=
  { defEnv with
      chainTxs := fun h => if h = 5 then some (prevTxCoinbase, 10) else none
      lastHeight := 110 }

/-- Candidate spending the coinbase output. -/
def tx7 : Transaction :=
  { version := 1
    inputs := [baseInput 5 0]
    outputs := [{ baseOutput with value := 10000 }]
    txHash := 103
    serializedSize := 100 }

/-- Candidate whose only input references output index 5 of a transaction
with a single output. -/
def tx8 : Transaction :=
  { version := 1
    inputs := [baseInput 2 5]
    outputs := [{ baseOutput with value := 10000 }]
    txHash := 104
    serializedSize := 100 }

/-- Mainnet chain at height exactly 1,270,000. -/
def env6a : Env := { defEnv with lastHeight := 1270000 }

/-- Mainnet chain at height 1,270,001. -/
def env6b : Env := { defEnv with lastHeight := 1270001 }

/-- Candidate carrying the nova version. -/
def txNova : Transaction :=
  { version := tv_check_nova_feature
    inputs := [baseInput 2 0]
    outputs := [{ baseOutput with value := 10000 }]
    txHash := 105
    serializedSize := 100 }

/-- Secondary-issue asset detail for symbol ABC with threshold 50. -/
def secIssueDetail : AssetDetailInfo :=
  { symbol := "ABC", address := "A", maxSupply := 500000, threshold := 50,
    secondaryFlag := true, certMask := [], issuer := "I" }

/-- Chain with accumulated volume 1,000,000 for ABC. -/
def env4 : Env :=
  { defEnv with getAssetVolume := fun s => if s = "ABC" then 1000000 else 0 }

/-- Secondary issue of ABC with transfer volume 400,000 (40 percent). -/
def tx5 : Transaction :=
  { version := 1
    inputs := []
    outputs := [{ baseOutput with attach := Attach.assetIssue secIssueDetail },
                { baseOutput with
                    attach := Attach.assetTransfer
                      { symbol := "ABC", quantity := 400000 } }]
    txHash := 106
    serializedSize := 100 }

/-- Secondary issue of ABC with transfer volume 600,000 (60 percent). -/
def tx6 : Transaction :=
  { version := 1
    inputs := []
    outputs := [{ baseOutput with attach := Attach.assetIssue secIssueDetail },
                { baseOutput with
                    attach := Attach.assetTransfer
                      { symbol := "ABC", quantity := 600000 } }]
    txHash := 107
    serializedSize := 100 }

/-- Chain with accumulated volume 1 for ABC, for the overflow case. -/
def env4o : Env :=
  { defEnv with getAssetVolume := fun s => if s = "ABC" then 1 else 0 }

/-- Secondary issue declaring the maximal `uint64` amount, overflowing
the accumulated volume. -/
def tx5o : Transaction :=
  { version := 1
    inputs := []
    outputs := [{ baseOutput with
                    attach := Attach.assetIssue
                      { secIssueDetail with maxSupply := max_uint64 } }]
    txHash := 109
    serializedSize := 100 }

/-- DID payload transferred in the C8 scenarios. -/
def didT : DidInfo := { symbol := "BOB", address := "B" }

/-- Chain on which the DID `BOB` exists. -/
def env8 : Env :=
  { defEnv with isDidExist := fun s => decide (s = "BOB") }

/-- Did-transfer candidate with three inputs instead of two. -/
def txD : Transaction :=
  { version := 1
    inputs := [baseInput 2 0, baseInput 2 0, baseInput 2 0]
    outputs := [{ baseOutput with
                    value := 10000
                    attach := Attach.didTransfer didT }]
    txHash := 108
    serializedSize := 100 }

/-- Confirmed transaction holding the prior did output of `BOB` (hash 6). -/
def prevTxDidOut : Transaction :=
  { version := 1
    inputs := [baseInput 9 0]
    outputs := [{ baseOutput with
                    value := 20000
                    attach := Attach.didRegister
                      { symbol := "BOB", address := "OLD" } }]
    txHash := 6
    serializedSize := 100 }

/-- Confirmed transaction holding a 20000 etp output at address B
(hash 7). -/
def prevTxEtpB : Transaction :=
  { version := 1
    inputs := [baseInput 9 0]
    outputs := [{ baseOutput with value := 20000, scriptAddress := "B" }]
    txHash := 7
    serializedSize := 100 }

/-- Chain holding the did output and the etp output for the well-formed
transfer. -/
def env9 : Env :=
  { defEnv with
      isDidExist := fun s => decide (s = "BOB")
      chainTxs := fun h =>
        if h = 6 then some (prevTxDidOut, 10)
        else if h = 7 then some (prevTxEtpB, 10)
        else none }

/-- Well-formed did-transfer candidate with the two required inputs. -/
def txD2 : Transaction :=
  { version := 1
    inputs := [baseInput 6 0, baseInput 7 0]
    outputs := [{ baseOutput with
                    value := 10000
                    attach := Attach.didTransfer didT }]
    txHash := 110
    serializedSize := 100 }

/-- A successful basic check implies the transaction has inputs and
outputs (the `empty_transaction` guard fired otherwise). -/
lemma check_transaction_basic_success_nonempty (env : Env) (tx : Transaction)
    (h : check_transaction_basic env tx = ErrCode.success) :
    tx.inputs ≠ [] ∧ tx.outputs ≠ [] := by
  unfold check_transaction_basic at h
  split_ifs at h with h1 h2 h3 h4 h5 h6
  all_goals first
    | exact ErrCode.noConfusion h
    | (simp only [List.isEmpty_iff, not_or] at h5; exact h5)

/-- A successful full check implies success of the basic and the DID
stage. -/
lemma check_transaction_success_parts (env : Env) (tx : Transaction)
    (h : check_transaction env tx = ErrCode.success) :
    check_transaction_basic env tx = ErrCode.success ∧
    check_did_transaction env tx = ErrCode.success := by
  unfold check_transaction at h
  split_ifs at h with h1 h2 h3 h4 h5
  · exact absurd h h1
  · exact absurd h h2
  · exact absurd h h3
  · exact absurd h h4
  · exact absurd h h5
  · exact ⟨not_not.mp h1, h⟩

/-- Successful `basic_checks` implies a successful full check. -/
lemma basic_checks_success_parts (env : Env) (tx : Transaction)
    (h : basic_checks env tx = ErrCode.success) :
    check_transaction env tx = ErrCode.success := by
  unfold basic_checks at h
  split_ifs at h with h1 h2 h3 h4
  all_goals first
    | exact not_not.mp h1
    | exact ErrCode.noConfusion h
    | exact absurd h h1

/-- The input-resolution loop never aborts with a `success` verdict. -/
lemma connectAllInputs_error_ne_success (env : Env) (tx : Transaction)
    (lastH : Nat) (pairs : List (Nat × Input)) (s : ConnState)
    (unconf : List Nat) (v : Verdict)
    (h : connectAllInputs env tx lastH pairs s unconf = Except.error v) :
    v.1 ≠ ErrCode.success := by
  induction pairs generalizing s unconf with
  | nil => simp [connectAllInputs] at h
  | cons p rest ih =>
    obtain ⟨i, inp⟩ := p
    unfold connectAllInputs at h
    cases hc : env.chainTxs inp.prevHash with
    | some pr =>
      obtain ⟨ptx, parentH⟩ := pr
      simp only [hc] at h
      cases hci : connect_input env tx i ptx parentH lastH s with
      | none =>
        simp only [hci] at h
        injection h with h'
        subst h'
        simp
      | some s' =>
        simp only [hci] at h
        split_ifs at h with hu
        · exact ih s' unconf h
        · injection h with h'; subst h'; simp
    | none =>
      simp only [hc] at h
      cases hp : env.poolTxs inp.prevHash with
      | none =>
        simp only [hp] at h
        injection h with h'; subst h'; simp
      | some ptx =>
        simp only [hp] at h
        cases hci : connect_input env tx i ptx 0 lastH s with
        | none =>
          simp only [hci] at h
          injection h with h'; subst h'; simp
        | some s' =>
          simp only [hci] at h
          split_ifs at h with hu
          · exact ih s' (unconf ++ [i]) h
          · injection h with h'; subst h'; simp

/-- A `success` verdict comes from a completed resolution loop followed by
a successful fee stage. -/
lemma startCalls_success_struct (env : Env) (tx : Transaction) (v : List Nat)
    (h : startCalls env tx = [(ErrCode.success, v)]) :
    ∃ s unconf,
      connectAllInputs env tx env.lastHeight tx.inputs.enum initConnState []
        = Except.ok (s, unconf) ∧
      checkFees env tx s unconf = (ErrCode.success, v) := by
  unfold startCalls at h
  split_ifs at h with h1 h2 h3 h4 h5 h6
  · rw [h1] at h; simp at h
  · simp at h; exact absurd h.1 h2
  · simp at h
  · simp at h
  · simp at h; exact absurd h.1 h5
  · cases hc : connectAllInputs env tx env.lastHeight tx.inputs.enum
        initConnState [] with
    | error vv =>
      simp only [hc] at h
      injection h with h'
      exact ((connectAllInputs_error_ne_success env tx env.lastHeight _ _ _ _ hc)
        (congrArg Prod.fst h')).elim
    | ok p =>
      obtain ⟨s, unconf⟩ := p
      simp only [hc] at h
      injection h with h'
      exact ⟨s, unconf, rfl, h'⟩

/-- Claim C9: for every chain and pool snapshot and every transaction,
`start` invokes the validation handler exactly once — the resolution loop
is only entered with a nonempty input list (empty transactions are
rejected beforehand), every loop exit emits one verdict, and every early
error path emits one verdict. -/
theorem start_invokes_handler_exactly_once (env : Env) (tx : Transaction) :
    (startCalls env tx).length = 1 := by
  unfold startCalls
  split_ifs with h1 h2 h3 h4 h5 h6
  · rfl
  · rfl
  · rfl
  · rfl
  · rfl
  · exfalso
    have hs := not_not.mp h2
    have hb := (check_transaction_success_parts env tx
      (basic_checks_success_parts env tx hs)).1
    exact (check_transaction_basic_success_nonempty env tx hb).1
      (List.isEmpty_iff.mp h6)
  · cases connectAllInputs env tx env.lastHeight tx.inputs.enum
        initConnState [] with
    | error vv => rfl
    | ok p =>
      obtain ⟨s, unconf⟩ := p
      rfl

/-- Witness for C9 at a concrete environment and transaction. -/
theorem start_invokes_handler_exactly_once_witness :
    (startCalls env1 tx1).length = 1 :=
  start_invokes_handler_exactly_once env1 tx1

/-- A successful fee stage under an asset business kind with an
asset-transfer output present implies the amount check passed. -/
lemma checkFees_success_asset_amount (env : Env) (tx : Transaction)
    (s : ConnState) (unconf : List Nat) (v : List Nat)
    (h : checkFees env tx s unconf = (ErrCode.success, v))
    (hkind : s.business_kind_in = BusinessKind.asset_issue ∨
      s.business_kind_in = BusinessKind.asset_transfer)
    (htr : tx.hasAssetTransfer = true) :
    check_asset_amount tx s = true := by
  unfold checkFees at h
  cases ht : tally_fees tx s.value_in 0 with
  | none =>
    simp only [ht] at h
    injection h with h1 h2
    exact ErrCode.noConfusion h1
  | some t =>
    simp only [ht] at h
    rw [if_pos hkind, if_pos htr] at h
    cases hca : check_asset_amount tx s with
    | false => rw [hca] at h; simp at h
    | true => rfl

/-- Claim C1 counterexample: `tx1` spends an asset-issue output carrying
1000 ABC into pure etp outputs; the validator accepts it with latched
business kind `asset_issue` although the input asset amount (1000) differs
from the output asset-transfer amount (0) — `check_asset_amount` is only
run when the transaction has an asset-transfer output. -/
theorem asset_amount_not_conserved_without_transfer_output :
    startCalls env1 tx1 = [(ErrCode.success, [])] ∧
    ∃ s unconf, finalState env1 tx1 = some (s, unconf) ∧
      s.business_kind_in = BusinessKind.asset_issue ∧
      s.asset_amount_in ≠ tx1.totalOutputTransferAmount := by
  refine ⟨rfl, ⟨_, _, rfl, rfl, ?_⟩⟩
  decide

/-- Claim C1 (amended): for every transaction the validator accepts whose
latched input business kind is `asset_issue` or `asset_transfer` and which
has at least one asset-transfer output, the sum of asset amounts over the
resolved previous outputs equals the sum of asset-transfer amounts over
the transaction's outputs. -/
theorem accepted_asset_kind_with_transfer_conserves_amount
    (env : Env) (tx : Transaction) (v : List Nat) (s : ConnState)
    (unconf : List Nat)
    (hacc : startCalls env tx = [(ErrCode.success, v)])
    (hrun : connectAllInputs env tx env.lastHeight tx.inputs.enum
      initConnState [] = Except.ok (s, unconf))
    (hkind : s.business_kind_in = BusinessKind.asset_issue ∨
      s.business_kind_in = BusinessKind.asset_transfer)
    (htr : tx.hasAssetTransfer = true) :
    s.asset_amount_in = tx.totalOutputTransferAmount := by
  obtain ⟨s', u', hc, hf⟩ := startCalls_success_struct env tx v hacc
  rw [hrun] at hc
  injection hc with hpair
  injection hpair with hs hu
  subst hs
  subst hu
  have hca := checkFees_success_asset_amount env tx s unconf v hf hkind htr
  simpa [check_asset_amount] using hca

/-- Witness for the amended C1: `tx2` transfers the full 1000 ABC, is
accepted, and the conservation theorem applies to it. -/
theorem accepted_asset_kind_with_transfer_conserves_amount_witness :
    ∃ s : ConnState,
      connectAllInputs env1 tx2 env1.lastHeight tx2.inputs.enum initConnState []
        = Except.ok (s, []) ∧
      s.asset_amount_in = tx2.totalOutputTransferAmount := by
  refine ⟨_, rfl, ?_⟩
  exact accepted_asset_kind_with_transfer_conserves_amount env1 tx2 [] _ []
    rfl rfl (Or.inl rfl) rfl

/-- A successful fee tally with zero running total implies the three fee
conditions. -/
lemma tally_fees_some_conditions (tx : Transaction) (vin t : Nat)
    (h : tally_fees tx vin 0 = some t) :
    tx.totalOutputValue ≤ vin ∧
    min_tx_fee ≤ vin - tx.totalOutputValue ∧
    (vin - tx.totalOutputValue) % u64Mod ≤ max_money := by
  unfold tally_fees at h
  split_ifs at h with h1 h2 h3
  rw [Nat.zero_add] at h3
  exact ⟨Nat.le_of_not_lt h1, Nat.le_of_not_lt h2, h3⟩

/-- When any fee condition fails, the tally with zero running total
fails. -/
lemma tally_fees_none_of (tx : Transaction) (vin : Nat)
    (hcond : vin < tx.totalOutputValue ∨
      vin - tx.totalOutputValue < min_tx_fee ∨
      max_money < (vin - tx.totalOutputValue) % u64Mod) :
    tally_fees tx vin 0 = none := by
  unfold tally_fees
  split_ifs with h1 h2 h3
  · rfl
  · rfl
  · rw [Nat.zero_add] at h3
    rcases hcond with hc | hc | hc
    · exact absurd hc h1
    · exact absurd hc h2
    · exact absurd h3 (Nat.not_le_of_lt hc)
  · rfl

/-- Claim C3: a transaction that completes input resolution is accepted
only if `fee = value_in - value_out` is at least `min_tx_fee` and at most
`max_money`; when a fee condition fails, the fee stage reports
`fees_out_of_range`; concretely, a 20000 etp input with a 10000 etp output
is accepted and with a 10001 etp output is rejected with
`fees_out_of_range`. -/
theorem fee_rule :
    (∀ env tx v s unconf,
      startCalls env tx = [(ErrCode.success, v)] →
      connectAllInputs env tx env.lastHeight tx.inputs.enum initConnState []
        = Except.ok (s, unconf) →
      tx.totalOutputValue ≤ s.value_in ∧
      min_tx_fee ≤ s.value_in - tx.totalOutputValue ∧
      (s.value_in - tx.totalOutputValue) % u64Mod ≤ max_money) ∧
    (∀ env tx s unconf,
      (s.value_in < tx.totalOutputValue ∨
        s.value_in - tx.totalOutputValue < min_tx_fee ∨
        max_money < (s.value_in - tx.totalOutputValue) % u64Mod) →
      checkFees env tx s unconf = (ErrCode.fees_out_of_range, [])) ∧
    startCalls env3 tx3 = [(ErrCode.success, [])] ∧
    startCalls env3 tx4 = [(ErrCode.fees_out_of_range, [])] := by
  refine ⟨?_, ?_, rfl, rfl⟩
  · intro env tx v s unconf hacc hrun
    obtain ⟨s', u', hc, hf⟩ := startCalls_success_struct env tx v hacc
    rw [hrun] at hc
    injection hc with hp
    injection hp with hs hu
    subst hs
    unfold checkFees at hf
    cases ht : tally_fees tx s.value_in 0 with
    | none =>
      simp only [ht] at hf
      injection hf with h1 h2
      exact ErrCode.noConfusion h1
    | some t => exact tally_fees_some_conditions tx s.value_in t ht
  · intro env tx s unconf hcond
    have hn := tally_fees_none_of tx s.value_in hcond
    unfold checkFees
    simp only [hn]

/-- Witness for C3: the fee conditions of the theorem hold at the accepted
concrete run of `tx3`, and the failing branch applies to `tx4`'s state. -/
theorem fee_rule_witness :
    (∃ s : ConnState,
      connectAllInputs env3 tx3 env3.lastHeight tx3.inputs.enum initConnState []
        = Except.ok (s, []) ∧
      tx3.totalOutputValue ≤ s.value_in ∧
      min_tx_fee ≤ s.value_in - tx3.totalOutputValue ∧
      (s.value_in - tx3.totalOutputValue) % u64Mod ≤ max_money) ∧
    checkFees env3 tx4
      { initConnState with value_in := 20000 } [] =
      (ErrCode.fees_out_of_range, []) := by
  constructor
  · refine ⟨_, rfl, ?_⟩
    exact fee_rule.1 env3 tx3 [] _ [] rfl rfl
  · exact fee_rule.2.1 env3 tx4 { initConnState with value_in := 20000 } []
      (Or.inr (Or.inl (by decide)))

/-- A successful `connect_input` decomposes into a resolved input, a
resolved previous output and a successful aggregate update that fixes the
resulting business kind. -/
lemma connect_input_some_struct (env : Env) (tx : Transaction) (i : Nat)
    (ptx : Transaction) (pH lH : Nat) (s s' : ConnState)
    (h : connect_input env tx i ptx pH lH s = some s') :
    ∃ input po s1 amt co,
      tx.inputs[i]? = some input ∧
      ptx.outputs[input.prevIndex]? = some po ∧
      connectUpdateKind po s = some (s1, amt, co) ∧
      s'.business_kind_in = s1.business_kind_in := by
  unfold connect_input at h
  cases hin : tx.inputs[i]? with
  | none => simp only [hin] at h; exact Option.noConfusion h
  | some input =>
    simp only [hin] at h
    cases hpo : ptx.outputs[input.prevIndex]? with
    | none => simp only [hpo] at h; exact Option.noConfusion h
    | some po =>
      simp only [hpo] at h
      cases hk : connectUpdateKind po s with
      | none => simp only [hk] at h; split_ifs at h
      | some trip =>
        obtain ⟨s1, amt, co⟩ := trip
        simp only [hk] at h
        split_ifs at h with hv hcb hfb hcc hvm
        injection h with h2
        refine ⟨input, po, s1, amt, co, rfl, hpo, hk, ?_⟩
        rw [← h2]

/-- Spending an issue or secondary-issue output sets the business kind to
`asset_issue` in the aggregate update. -/
lemma connectUpdateKind_assetIssue_kind (po : Output) (s : ConnState)
    (d : AssetDetailInfo) (s1 : ConnState) (amt : Nat)
    (co : Option AssetCertType)
    (hat : po.attach = Attach.assetIssue d)
    (h : connectUpdateKind po s = some (s1, amt, co)) :
    s1.business_kind_in = BusinessKind.asset_issue := by
  unfold connectUpdateKind at h
  simp only [Output.isAsset, Output.isAssetIssue, Output.isAssetSecondaryIssue,
    Output.isAssetTransfer, Output.getAssetSymbol, Output.getAssetAmount,
    hat] at h
  cases hf : d.secondaryFlag
  all_goals simp only [hf] at h
  all_goals simp at h
  all_goals split_ifs at h with h1 h2 h3
  all_goals (simp at h; obtain ⟨hs1, hrest⟩ := h; rw [← hs1])

/-- Spending an asset-transfer output sets the business kind to
`did_transfer` in the aggregate update. -/
lemma connectUpdateKind_assetTransfer_kind (po : Output) (s : ConnState)
    (t : AssetTransferInfo) (s1 : ConnState) (amt : Nat)
    (co : Option AssetCertType)
    (hat : po.attach = Attach.assetTransfer t)
    (h : connectUpdateKind po s = some (s1, amt, co)) :
    s1.business_kind_in = BusinessKind.did_transfer := by
  unfold connectUpdateKind at h
  simp only [Output.isAsset, Output.isAssetIssue, Output.isAssetSecondaryIssue,
    Output.isAssetTransfer, Output.getAssetSymbol, Output.getAssetAmount,
    hat] at h
  simp at h
  split_ifs at h with h1 h2 h3
  all_goals (simp at h; obtain ⟨hs1, hrest⟩ := h; rw [← hs1])

/-- Spending an asset-cert output sets the business kind to `asset_cert`
in the aggregate update. -/
lemma connectUpdateKind_assetCert_kind (po : Output) (s : ConnState)
    (c : CertInfo) (s1 : ConnState) (amt : Nat) (co : Option AssetCertType)
    (hat : po.attach = Attach.assetCert c)
    (h : connectUpdateKind po s = some (s1, amt, co)) :
    s1.business_kind_in = BusinessKind.asset_cert := by
  unfold connectUpdateKind at h
  simp only [Output.isAsset, Output.isAssetCert, Output.getAssetSymbol,
    Output.getAssetCertType, Output.getAssetCertSymbol, hat] at h
  simp at h
  split_ifs at h with h1 h2 h3
  all_goals (simp at h; obtain ⟨hs1, hrest⟩ := h; rw [← hs1])

/-- A cert input whose cert type already occurs among the input certs
fails the aggregate update. -/
lemma connectUpdateKind_cert_dup_none (po : Output) (s : ConnState)
    (c : CertInfo)
    (hat : po.attach = Attach.assetCert c)
    (hdup : testCert s.asset_certs_in c.ctype = true) :
    connectUpdateKind po s = none := by
  unfold connectUpdateKind
  simp only [Output.isAsset, Output.isAssetCert, Output.getAssetSymbol,
    Output.getAssetCertType, Output.getAssetCertSymbol, hat]
  simp
  split_ifs <;> simp [hdup]

/-- With a domain cert among the input certs, a cert input whose symbol
differs from the domain of the latched symbol fails the aggregate
update. -/
lemma connectUpdateKind_cert_domain_mismatch_none (po : Output) (s : ConnState)
    (c : CertInfo)
    (hat : po.attach = Attach.assetCert c)
    (hold : s.old_symbol_in ≠ "")
    (hdom : testCert s.asset_certs_in AssetCertType.domain = true)
    (hneq : getDomain s.old_symbol_in ≠ c.symbol) :
    connectUpdateKind po s = none := by
  unfold connectUpdateKind
  simp only [Output.isAsset, Output.isAssetCert, Output.getAssetSymbol,
    Output.getAssetCertType, Output.getAssetCertSymbol, hat]
  simp
  split_ifs <;> simp_all

/-- Without a domain cert among the input certs, a cert input whose symbol
differs from the latched symbol fails the aggregate update. -/
lemma connectUpdateKind_cert_symbol_mismatch_none (po : Output) (s : ConnState)
    (c : CertInfo)
    (hat : po.attach = Attach.assetCert c)
    (hold : s.old_symbol_in ≠ "")
    (hdom : testCert s.asset_certs_in AssetCertType.domain = false)
    (hneq : s.old_symbol_in ≠ c.symbol) :
    connectUpdateKind po s = none := by
  unfold connectUpdateKind
  simp only [Output.isAsset, Output.isAssetCert, Output.getAssetSymbol,
    Output.getAssetCertType, Output.getAssetCertSymbol, hat]
  simp
  split_ifs <;> simp_all

/-- A failed aggregate update makes `connect_input` fail. -/
lemma connect_input_none_of_updateKind_none (env : Env) (tx : Transaction)
    (i : Nat) (ptx : Transaction) (pH lH : Nat) (s : ConnState)
    (input : Input) (po : Output)
    (hin : tx.inputs[i]? = some input)
    (hpo : ptx.outputs[input.prevIndex]? = some po)
    (hk : connectUpdateKind po s = none) :
    connect_input env tx i ptx pH lH s = none := by
  unfold connect_input
  simp only [hin, hpo, hk]
  split_ifs <;> rfl

/-- Claim C2: in `connect_input`, a resolved previous output that is an
asset-issue or secondary-issue output latches `business_kind_in =
asset_issue`, and a resolved asset-transfer output latches
`business_kind_in = did_transfer` (not `asset_transfer`). -/
theorem connect_input_asset_business_kind :
    (∀ (env : Env) (tx : Transaction) (i : Nat) (ptx : Transaction)
      (pH lH : Nat) (s s' : ConnState) (input : Input) (po : Output)
      (d : AssetDetailInfo),
      tx.inputs[i]? = some input →
      ptx.outputs[input.prevIndex]? = some po →
      po.attach = Attach.assetIssue d →
      connect_input env tx i ptx pH lH s = some s' →
      s'.business_kind_in = BusinessKind.asset_issue) ∧
    (∀ (env : Env) (tx : Transaction) (i : Nat) (ptx : Transaction)
      (pH lH : Nat) (s s' : ConnState) (input : Input) (po : Output)
      (t : AssetTransferInfo),
      tx.inputs[i]? = some input →
      ptx.outputs[input.prevIndex]? = some po →
      po.attach = Attach.assetTransfer t →
      connect_input env tx i ptx pH lH s = some s' →
      s'.business_kind_in = BusinessKind.did_transfer) := by
  constructor
  · intro env tx i ptx pH lH s s' input po d hin hpo hat h
    obtain ⟨input0, po0, s1, amt, co, hin0, hpo0, hk, hbk⟩ :=
      connect_input_some_struct env tx i ptx pH lH s s' h
    rw [hin] at hin0
    injection hin0 with he
    subst he
    rw [hpo] at hpo0
    injection hpo0 with he2
    subst he2
    rw [hbk]
    exact connectUpdateKind_assetIssue_kind po s d s1 amt co hat hk
  · intro env tx i ptx pH lH s s' input po t hin hpo hat h
    obtain ⟨input0, po0, s1, amt, co, hin0, hpo0, hk, hbk⟩ :=
      connect_input_some_struct env tx i ptx pH lH s s' h
    rw [hin] at hin0
    injection hin0 with he
    subst he
    rw [hpo] at hpo0
    injection hpo0 with he2
    subst he2
    rw [hbk]
    exact connectUpdateKind_assetTransfer_kind po s t s1 amt co hat hk

/-- Witness for C2: spending the concrete asset-issue output latches
`asset_issue`; spending the concrete asset-transfer output latches
`did_transfer`. -/
theorem connect_input_asset_business_kind_witness :
    (∃ s', connect_input env1 tx1 0 prevTxAssetIssue 10 50 initConnState
        = some s' ∧ s'.business_kind_in = BusinessKind.asset_issue) ∧
    (∃ s', connect_input defEnv tx1 0 prevTxAssetTransferOut 10 50 initConnState
        = some s' ∧ s'.business_kind_in = BusinessKind.did_transfer) := by
  constructor
  · refine ⟨_, rfl, ?_⟩
    exact connect_input_asset_business_kind.1 env1 tx1 0 prevTxAssetIssue 10 50
      initConnState _ (baseInput 1 0)
      ({ baseOutput with
           value := 20000
           attach := Attach.assetIssue
             { symbol := "ABC", address := "A", maxSupply := 1000,
               threshold := 30, secondaryFlag := false,
               certMask := [], issuer := "I" } })
      { symbol := "ABC", address := "A", maxSupply := 1000,
        threshold := 30, secondaryFlag := false,
        certMask := [], issuer := "I" } rfl rfl rfl rfl
  · refine ⟨_, rfl, ?_⟩
    exact connect_input_asset_business_kind.2 defEnv tx1 0
      prevTxAssetTransferOut 10 50 initConnState _ (baseInput 1 0)
      ({ baseOutput with
           value := 20000
           attach := Attach.assetTransfer { symbol := "ABC", quantity := 500 } })
      { symbol := "ABC", quantity := 500 } rfl rfl rfl rfl

/-- Claim C7: for a resolved previous output that is an asset-cert output,
`connect_input` latches `business_kind_in = asset_cert`; it rejects a cert
type already present among the input certs; with a domain cert among the
input certs the new cert's symbol must equal the domain of the latched
symbol, and otherwise it must equal the latched symbol (when non-empty). -/
theorem connect_input_cert_rules :
    (∀ (env : Env) (tx : Transaction) (i : Nat) (ptx : Transaction)
      (pH lH : Nat) (s s' : ConnState) (input : Input) (po : Output)
      (c : CertInfo),
      tx.inputs[i]? = some input →
      ptx.outputs[input.prevIndex]? = some po →
      po.attach = Attach.assetCert c →
      connect_input env tx i ptx pH lH s = some s' →
      s'.business_kind_in = BusinessKind.asset_cert) ∧
    (∀ (env : Env) (tx : Transaction) (i : Nat) (ptx : Transaction)
      (pH lH : Nat) (s : ConnState) (input : Input) (po : Output)
      (c : CertInfo),
      tx.inputs[i]? = some input →
      ptx.outputs[input.prevIndex]? = some po →
      po.attach = Attach.assetCert c →
      testCert s.asset_certs_in c.ctype = true →
      connect_input env tx i ptx pH lH s = none) ∧
    (∀ (env : Env) (tx : Transaction) (i : Nat) (ptx : Transaction)
      (pH lH : Nat) (s : ConnState) (input : Input) (po : Output)
      (c : CertInfo),
      tx.inputs[i]? = some input →
      ptx.outputs[input.prevIndex]? = some po →
      po.attach = Attach.assetCert c →
      s.old_symbol_in ≠ "" →
      testCert s.asset_certs_in AssetCertType.domain = true →
      getDomain s.old_symbol_in ≠ c.symbol →
      connect_input env tx i ptx pH lH s = none) ∧
    (∀ (env : Env) (tx : Transaction) (i : Nat) (ptx : Transaction)
      (pH lH : Nat) (s : ConnState) (input : Input) (po : Output)
      (c : CertInfo),
      tx.inputs[i]? = some input →
      ptx.outputs[input.prevIndex]? = some po →
      po.attach = Attach.assetCert c →
      s.old_symbol_in ≠ "" →
      testCert s.asset_certs_in AssetCertType.domain = false →
      s.old_symbol_in ≠ c.symbol →
      connect_input env tx i ptx pH lH s = none) := by
  refine ⟨?_, ?_, ?_, ?_⟩
  · intro env tx i ptx pH lH s s' input po c hin hpo hat h
    obtain ⟨input0, po0, s1, amt, co, hin0, hpo0, hk, hbk⟩ :=
      connect_input_some_struct env tx i ptx pH lH s s' h
    rw [hin] at hin0
    injection hin0 with he
    subst he
    rw [hpo] at hpo0
    injection hpo0 with he2
    subst he2
    rw [hbk]
    exact connectUpdateKind_assetCert_kind po s c s1 amt co hat hk
  · intro env tx i ptx pH lH s input po c hin hpo hat hdup
    exact connect_input_none_of_updateKind_none env tx i ptx pH lH s input po
      hin hpo (connectUpdateKind_cert_dup_none po s c hat hdup)
  · intro env tx i ptx pH lH s input po c hin hpo hat hold hdom hneq
    exact connect_input_none_of_updateKind_none env tx i ptx pH lH s input po
      hin hpo
      (connectUpdateKind_cert_domain_mismatch_none po s c hat hold hdom hneq)
  · intro env tx i ptx pH lH s input po c hin hpo hat hold hdom hneq
    exact connect_input_none_of_updateKind_none env tx i ptx pH lH s input po
      hin hpo
      (connectUpdateKind_cert_symbol_mismatch_none po s c hat hold hdom hneq)

/-- Witness for C7: a fresh cert input latches `asset_cert`; a duplicate
issue cert, a domain-relaxation mismatch and a plain symbol mismatch are
each rejected. -/
theorem connect_input_cert_rules_witness :
    (∃ s', connect_input defEnv tx1 0 (prevTxCert certInfoA) 10 50
        initConnState = some s' ∧
      s'.business_kind_in = BusinessKind.asset_cert) ∧
    connect_input defEnv tx1 0 (prevTxCert certInfoA) 10 50
      { initConnState with asset_certs_in := [AssetCertType.issue] } = none ∧
    connect_input defEnv tx1 0 (prevTxCert { certInfoA with symbol := "WRONG" })
      10 50
      { initConnState with
          old_symbol_in := "ABC.X"
          asset_certs_in := [AssetCertType.domain] } = none ∧
    connect_input defEnv tx1 0 (prevTxCert { certInfoA with symbol := "XYZ" })
      10 50 { initConnState with old_symbol_in := "ABC" } = none := by
  refine ⟨?_, ?_, ?_, ?_⟩
  · refine ⟨_, rfl, ?_⟩
    exact connect_input_cert_rules.1 defEnv tx1 0 (prevTxCert certInfoA) 10 50
      initConnState _ (baseInput 1 0)
      ({ baseOutput with value := 20000, attach := Attach.assetCert certInfoA })
      certInfoA rfl rfl rfl rfl
  · exact connect_input_cert_rules.2.1 defEnv tx1 0 (prevTxCert certInfoA)
      10 50 { initConnState with asset_certs_in := [AssetCertType.issue] }
      (baseInput 1 0)
      ({ baseOutput with value := 20000, attach := Attach.assetCert certInfoA })
      certInfoA rfl rfl rfl (by decide)
  · exact connect_input_cert_rules.2.2.1 defEnv tx1 0
      (prevTxCert { certInfoA with symbol := "WRONG" }) 10 50
      { initConnState with
          old_symbol_in := "ABC.X"
          asset_certs_in := [AssetCertType.domain] }
      (baseInput 1 0)
      ({ baseOutput with
           value := 20000
           attach := Attach.assetCert { certInfoA with symbol := "WRONG" } })
      { certInfoA with symbol := "WRONG" } rfl rfl rfl (by decide) (by decide)
      (by decide)
  · exact connect_input_cert_rules.2.2.2 defEnv tx1 0
      (prevTxCert { certInfoA with symbol := "XYZ" }) 10 50
      { initConnState with old_symbol_in := "ABC" } (baseInput 1 0)
      ({ baseOutput with
           value := 20000
           attach := Attach.assetCert { certInfoA with symbol := "XYZ" } })
      { certInfoA with symbol := "XYZ" } rfl rfl rfl (by decide) (by decide)
      (by decide)

/-- Claim C5: an input spending a coinbase output connects only when
`last_block_height - parent_height` reaches the coinbase maturity; the
concrete spend at height 10 is rejected as `validate_inputs_failed` at
height 10 + maturity − 1 and accepted at height 10 + maturity. -/
theorem coinbase_maturity_rule :
    (∀ (env : Env) (tx : Transaction) (i : Nat) (ptx : Transaction)
      (pH lH : Nat) (s : ConnState),
      ptx.isCoinbase = true →
      lH - pH < env.coinbaseMaturity →
      connect_input env tx i ptx pH lH s = none) ∧
    startCalls env5a tx7 = [(ErrCode.validate_inputs_failed, [0])] ∧
    startCalls env5b tx7 = [(ErrCode.success, [])] := by
  refine ⟨?_, rfl, rfl⟩
  intro env tx i ptx pH lH s hc hm
  unfold connect_input
  cases hin : tx.inputs[i]? with
  | none => simp [hin]
  | some input =>
    simp only [hin]
    cases hpo : ptx.outputs[input.prevIndex]? with
    | none => simp [hpo]
    | some po =>
      simp only [hpo]
      cases hk : connectUpdateKind po s with
      | none => simp [hk]
      | some trip =>
        obtain ⟨s1, amt, co⟩ := trip
        simp only [hk]
        by_cases hv : max_money < po.value
        · simp [hv]
        · rw [if_neg hv, if_pos (show ptx.isCoinbase = true ∧
            lH - pH < env.coinbaseMaturity from ⟨hc, hm⟩)]

/-- Witness for C5 at the concrete immature coinbase spend. -/
theorem coinbase_maturity_rule_witness :
    connect_input env5a tx7 0 prevTxCoinbase 10 109 initConnState = none :=
  coinbase_maturity_rule.1 env5a tx7 0 prevTxCoinbase 10 109 initConnState
    rfl (by decide)

/-- Claim C10: an input whose previous output index is not below the number
of outputs of the resolved previous transaction makes `connect_input`
return `false`, and the orchestrator reports `validate_inputs_failed` with
that input's index. -/
theorem out_of_bounds_previous_index_rejected :
    (∀ (env : Env) (tx : Transaction) (i : Nat) (ptx : Transaction)
      (pH lH : Nat) (s : ConnState) (input : Input),
      tx.inputs[i]? = some input →
      ptx.outputs.length ≤ input.prevIndex →
      connect_input env tx i ptx pH lH s = none) ∧
    startCalls env3 tx8 = [(ErrCode.validate_inputs_failed, [0])] := by
  refine ⟨?_, rfl⟩
  intro env tx i ptx pH lH s input hin hlen
  unfold connect_input
  simp only [hin]
  rw [List.getElem?_eq_none hlen]

/-- Witness for C10 at the concrete out-of-range spend. -/
theorem out_of_bounds_previous_index_rejected_witness :
    connect_input env3 tx8 0 prevTxEtp 10 50 initConnState = none :=
  out_of_bounds_previous_index_rejected.1 env3 tx8 0 prevTxEtp 10 50
    initConnState (baseInput 2 5) rfl (by decide)

/-- Claim C6: the nova gate is active on testnet at every height and on
mainnet exactly above height 1,270,000; a nova-version transaction fails
the basic check with `nova_feature_not_activated` at mainnet height
1,270,000 and passes at 1,270,001. -/
theorem nova_gate_rule :
    (∀ env : Env, env.useTestnetRules = true →
      is_nova_feature_activated env = true) ∧
    (∀ env : Env, env.useTestnetRules = false →
      (is_nova_feature_activated env = true ↔ 1270000 < env.lastHeight)) ∧
    check_transaction_basic env6a txNova = ErrCode.nova_feature_not_activated ∧
    (is_nova_feature_activated env6b = true ∧
      check_transaction_basic env6b txNova = ErrCode.success) := by
  refine ⟨?_, ?_, rfl, rfl, rfl⟩
  · intro env h
    unfold is_nova_feature_activated
    simp [h]
  · intro env h
    unfold is_nova_feature_activated
    simp [h]

/-- Witness for C6: the gate holds on a concrete testnet environment and
the mainnet equivalence applies at height 1,270,000. -/
theorem nova_gate_rule_witness :
    is_nova_feature_activated { defEnv with useTestnetRules := true } = true ∧
    (is_nova_feature_activated env6a = true ↔ 1270000 < env6a.lastHeight) := by
  constructor
  · exact nova_gate_rule.1 { defEnv with useTestnetRules := true } rfl
  · exact nova_gate_rule.2.1 env6a rfl

/-- Claim C4: `check_secondaryissue_transaction` rejects when the chain
volume plus the declared secondary-issue amount would overflow
`max_uint64`, and rejects with `asset_secondaryissue_share_not_enough`
when `is_secondaryissue_owns_enough` fails; with chain volume 1,000,000
and threshold 50, transfer volume 400,000 is rejected with
`asset_secondaryissue_share_not_enough` and 600,000 passes. -/
theorem secondaryissue_volume_rules :
    (∀ (env : Env) (tx : Transaction) (acc : SecAcc),
      tx.outputs.any (fun o => o.isAssetSecondaryIssue) = true →
      secondaryissueScan env tx.outputs initSecAcc = Except.ok acc →
      ¬(tv_check_nova_feature ≤ tx.version ∧
        testCert acc.certsOut AssetCertType.issue = false) →
      max_uint64 - acc.amount < env.getAssetVolume acc.symbol →
      check_secondaryissue_transaction env tx
        = ErrCode.asset_secondaryissue_error) ∧
    (∀ (env : Env) (tx : Transaction) (acc : SecAcc),
      tx.outputs.any (fun o => o.isAssetSecondaryIssue) = true →
      secondaryissueScan env tx.outputs initSecAcc = Except.ok acc →
      ¬(tv_check_nova_feature ≤ tx.version ∧
        testCert acc.certsOut AssetCertType.issue = false) →
      ¬(max_uint64 - acc.amount < env.getAssetVolume acc.symbol) →
      is_secondaryissue_owns_enough acc.volume (env.getAssetVolume acc.symbol)
        acc.threshold = false →
      check_secondaryissue_transaction env tx
        = ErrCode.asset_secondaryissue_share_not_enough) ∧
    check_secondaryissue_transaction env4 tx5
      = ErrCode.asset_secondaryissue_share_not_enough ∧
    check_secondaryissue_transaction env4 tx6 = ErrCode.success := by
  refine ⟨?_, ?_, rfl, rfl⟩
  · intro env tx acc hAny hscan hnova hov
    unfold check_secondaryissue_transaction
    simp only [hAny, hscan]
    rw [if_neg (by decide), if_neg hnova, if_pos hov]
  · intro env tx acc hAny hscan hnova hov hshare
    unfold check_secondaryissue_transaction
    simp only [hAny, hscan]
    rw [if_neg (by decide), if_neg hnova, if_neg hov, if_pos hshare]

/-- Witness for C4 at the concrete overflow and share scenarios. -/
theorem secondaryissue_volume_rules_witness :
    check_secondaryissue_transaction env4o tx5o
      = ErrCode.asset_secondaryissue_error ∧
    check_secondaryissue_transaction env4 tx5
      = ErrCode.asset_secondaryissue_share_not_enough := by
  constructor
  · exact secondaryissue_volume_rules.1 env4o tx5o _ rfl rfl (by decide)
      (by decide)
  · exact secondaryissue_volume_rules.2.1 env4 tx5 _ rfl rfl (by decide)
      (by decide) (by decide)

set_option maxHeartbeats 2000000 in
/-- The per-output DID check never emits a `success` error value. -/
lemma didCheckOutput_error_ne_success (env : Env) (tx : Transaction)
    (o : Output) (ty : Nat) (e : ErrCode)
    (h : didCheckOutput env tx o ty = Except.error e) :
    e ≠ ErrCode.success := by
  unfold didCheckOutput at h
  split_ifs at h with h1 h2 h3 h4 h5 h6 h7 h8 h9 h10 h11 h12 h13 h14 h15 h16
  all_goals first
    | exact Except.noConfusion h
    | (injection h with h'; subst h'; first | exact h1 | exact h2 | decide)

set_option maxHeartbeats 2000000 in
/-- A successful DID output loop implies `connect_did_input` held for every
did-transfer output. -/
lemma didLoop_success_transfer_connect (env : Env) (tx : Transaction)
    (outs : List Output) (ty : Nat)
    (h : didLoop env tx outs ty = ErrCode.success) :
    ∀ o ∈ outs, ∀ d : DidInfo, o.attach = Attach.didTransfer d →
      connect_did_input env tx DID_TRANSFERABLE_TYPE d.symbol d.address
        = true := by
  induction outs generalizing ty with
  | nil => intro o ho; exact absurd ho (List.not_mem_nil o)
  | cons o0 rest ih =>
    intro o ho d hat
    unfold didLoop at h
    cases hstep : didCheckOutput env tx o0 ty with
    | error e =>
      rw [hstep] at h
      exact absurd h (didCheckOutput_error_ne_success env tx o0 ty e hstep)
    | ok ty' =>
      rw [hstep] at h
      rcases List.mem_cons.mp ho with ho0 | horest
      · subst ho0
        unfold didCheckOutput at hstep
        simp only [Output.isDidRegister, Output.isDidTransfer,
          Output.getDidSymbol, Output.getDidAddress, hat,
          Bool.false_eq_true, if_false, if_true] at hstep
        split_ifs at hstep with h1 h2 h3 h4 h5 h6 h7
        all_goals first
          | exact Except.noConfusion hstep
          | (simp at h7; exact h7)
      · exact ih ty' h o horest d hat

/-- A positive did-found flag out of the input loop names an input spending
a did output of the symbol. -/
lemma didInputLoop_some_fd (env : Env) (status : Nat) (sym addr : String)
    (l : List Input) (fd0 fa0 fd fa : Bool)
    (h : didInputLoop env status sym addr l fd0 fa0 = some (fd, fa))
    (hfd : fd = true) :
    fd0 = true ∨ ∃ inp ∈ l, ∃ ptx hh po,
      env.chainTxs inp.prevHash = some (ptx, hh) ∧
      ptx.outputs[inp.prevIndex]? = some po ∧
      (po.isDidRegister = true ∨ po.isDidTransfer = true) ∧
      status = DID_TRANSFERABLE_TYPE ∧ sym = po.getDidSymbol := by
  induction l generalizing fd0 fa0 with
  | nil =>
    left
    unfold didInputLoop at h
    injection h with h'
    injection h' with ha hb
    rw [ha, hfd]
  | cons inp rest ih =>
    unfold didInputLoop at h
    cases hc : env.chainTxs inp.prevHash with
    | none => rw [hc] at h; exact Option.noConfusion h
    | some pr =>
      obtain ⟨ptx, hh⟩ := pr
      simp only [hc] at h
      cases hpo : ptx.outputs[inp.prevIndex]? with
      | none => simp only [hpo] at h; exact Option.noConfusion h
      | some po =>
        simp only [hpo] at h
        split_ifs at h with hd hcond he hcond2
        · right
          exact ⟨inp, List.mem_cons_self inp rest, ptx, hh, po, hc, hpo,
            (by simpa using hd), hcond.1, hcond.2⟩
        all_goals rcases ih _ _ h with h0 | ⟨inp2, hmem, rest2⟩
        all_goals first
          | exact Or.inl h0
          | exact Or.inr ⟨inp2, List.mem_cons_of_mem inp hmem, rest2⟩

/-- A positive address-found flag out of the input loop names an input
spending an etp output at the address. -/
lemma didInputLoop_some_fa (env : Env) (status : Nat) (sym addr : String)
    (l : List Input) (fd0 fa0 fd fa : Bool)
    (h : didInputLoop env status sym addr l fd0 fa0 = some (fd, fa))
    (hfa : fa = true) :
    fa0 = true ∨ ∃ inp ∈ l, ∃ ptx hh po,
      env.chainTxs inp.prevHash = some (ptx, hh) ∧
      ptx.outputs[inp.prevIndex]? = some po ∧
      po.isEtp = true ∧ addr = po.scriptAddress := by
  induction l generalizing fd0 fa0 with
  | nil =>
    left
    unfold didInputLoop at h
    injection h with h'
    injection h' with ha hb
    rw [hb, hfa]
  | cons inp rest ih =>
    unfold didInputLoop at h
    cases hc : env.chainTxs inp.prevHash with
    | none => rw [hc] at h; exact Option.noConfusion h
    | some pr =>
      obtain ⟨ptx, hh⟩ := pr
      simp only [hc] at h
      cases hpo : ptx.outputs[inp.prevIndex]? with
      | none => simp only [hpo] at h; exact Option.noConfusion h
      | some po =>
        simp only [hpo] at h
        split_ifs at h with hd hcond he hcond2
        all_goals first
          | (right
             exact ⟨inp, List.mem_cons_self inp rest, ptx, hh, po, hc, hpo,
               (by simpa using he), hcond2⟩)
          | (rcases ih _ _ h with h0 | ⟨inp2, hmem, rest2⟩
             · exact Or.inl h0
             · exact Or.inr ⟨inp2, List.mem_cons_of_mem inp hmem, rest2⟩)

/-- A successful transfer-shaped `connect_did_input` pins the input list to
length two with a did-spending input and an etp-spending input. -/
lemma connect_did_input_transfer_shape (env : Env) (tx : Transaction)
    (sym addr : String)
    (h : connect_did_input env tx DID_TRANSFERABLE_TYPE sym addr = true) :
    tx.inputs.length = 2 ∧
    (∃ inp ∈ tx.inputs, ∃ ptx hh po,
      env.chainTxs inp.prevHash = some (ptx, hh) ∧
      ptx.outputs[inp.prevIndex]? = some po ∧
      (po.isDidRegister = true ∨ po.isDidTransfer = true) ∧
      po.getDidSymbol = sym) ∧
    (∃ inp ∈ tx.inputs, ∃ ptx hh po,
      env.chainTxs inp.prevHash = some (ptx, hh) ∧
      ptx.outputs[inp.prevIndex]? = some po ∧
      po.isEtp = true ∧ po.scriptAddress = addr) := by
  unfold connect_did_input at h
  split_ifs at h with h1
  have hlen : tx.inputs.length = 2 := by
    by_contra hk
    exact h1 ⟨rfl, hk⟩
  cases hl : didInputLoop env DID_TRANSFERABLE_TYPE sym addr tx.inputs
      false false with
  | none => rw [hl] at h; exact Bool.noConfusion h
  | some p =>
    obtain ⟨fd, fa⟩ := p
    rw [hl] at h
    simp [DID_TRANSFERABLE_TYPE, DID_DETAIL_TYPE] at h
    obtain ⟨hfd, hfa⟩ := h
    refine ⟨hlen, ?_, ?_⟩
    · rcases didInputLoop_some_fd env DID_TRANSFERABLE_TYPE sym addr
          tx.inputs false false fd fa hl hfd with h0 | hex
      · exact Bool.noConfusion h0
      · obtain ⟨inp, hmem, ptx, hh, po, hc, hpo, hkind, hstat, hsym⟩ := hex
        exact ⟨inp, hmem, ptx, hh, po, hc, hpo, hkind, hsym.symm⟩
    · rcases didInputLoop_some_fa env DID_TRANSFERABLE_TYPE sym addr
          tx.inputs false false fd fa hl hfa with h0 | hex
      · exact Bool.noConfusion h0
      · obtain ⟨inp, hmem, ptx, hh, po, hc, hpo, hetp, haddr⟩ := hex
        exact ⟨inp, hmem, ptx, hh, po, hc, hpo, hetp, haddr.symm⟩

/-- Claim C8: a transaction with a did-transfer output passes
`check_did_transaction` only with exactly two inputs, one spending a did
output of the transferred symbol and one spending an etp output at the
DID's new address; the concrete three-input transfer is rejected with
`did_input_error`. -/
theorem did_transfer_input_shape :
    (∀ (env : Env) (tx : Transaction) (o : Output) (d : DidInfo),
      o ∈ tx.outputs →
      o.attach = Attach.didTransfer d →
      check_did_transaction env tx = ErrCode.success →
      tx.inputs.length = 2 ∧
      (∃ inp ∈ tx.inputs, ∃ ptx hh po,
        env.chainTxs inp.prevHash = some (ptx, hh) ∧
        ptx.outputs[inp.prevIndex]? = some po ∧
        (po.isDidRegister = true ∨ po.isDidTransfer = true) ∧
        po.getDidSymbol = d.symbol) ∧
      (∃ inp ∈ tx.inputs, ∃ ptx hh po,
        env.chainTxs inp.prevHash = some (ptx, hh) ∧
        ptx.outputs[inp.prevIndex]? = some po ∧
        po.isEtp = true ∧ po.scriptAddress = d.address)) ∧
    check_did_transaction env8 txD = ErrCode.did_input_error := by
  refine ⟨?_, rfl⟩
  intro env tx o d hmem hat hsucc
  have hconn := didLoop_success_transfer_connect env tx tx.outputs 255 hsucc
    o hmem d hat
  exact connect_did_input_transfer_shape env tx d.symbol d.address hconn

/-- Witness for C8 at the concrete well-formed did transfer. -/
theorem did_transfer_input_shape_witness :
    txD2.inputs.length = 2 ∧
    (∃ inp ∈ txD2.inputs, ∃ ptx hh po,
      env9.chainTxs inp.prevHash = some (ptx, hh) ∧
      ptx.outputs[inp.prevIndex]? = some po ∧
      (po.isDidRegister = true ∨ po.isDidTransfer = true) ∧
      po.getDidSymbol = didT.symbol) ∧
    (∃ inp ∈ txD2.inputs, ∃ ptx hh po,
      env9.chainTxs inp.prevHash = some (ptx, hh) ∧
      ptx.outputs[inp.prevIndex]? = some po ∧
      po.isEtp = true ∧ po.scriptAddress = didT.address) :=
  did_transfer_input_shape.1 env9 txD2
    { baseOutput with value := 10000, attach := Attach.didTransfer didT }
    didT (by decide) rfl rfl

end MVS
